import Mathlib

/-!
# Field–particle coupling of the `entity` PIC code: geometry helpers and current deposition

Shallow embedding of

* `src/objects/geometry/grid.h`      (`CoordinateGrid`),
* `src/pic/pic_particles_deposit.hpp` (`Deposit`),
* `src/global/utils/error.h`          (`raise::Error`, `raise::Fatal`, ...),
* `src/objects/sim_params.cpp`        (`SimulationParams`),
* `src/framework/fields.cpp`          (`Fields`), `src/objects/meshblock.h` (`Meshblock`),
* `src/engines/pic/currents/currents_ampere.cpp` (`PIC<D>::AmpereCurrents`),
* `ntt/main.cpp`                      (`main`).

Conventions of the embedding.

* `real_t` and `float` are idealised as one linearly ordered field `α` with a floor
  function (`ℚ` when a definition is evaluated, `ℝ` when a square root is needed);
  rounding is not modelled.
* `int`, `long int` and `std::size_t` values are mathematical integers; a conversion
  `static_cast<long int>(x)` truncates towards zero.
* `N_GHOSTS` (a constant of `global.h`) and `math::sqrt` / `std::sqrt` are parameters.
* Virtual member functions of `CoordinateGrid` are fields of a record; the class exactly
  as written in `grid.h` is the record `CoordinateGrid.base`.
-/

namespace ntt

variable {α : Type} [LinearOrderedField α] [FloorRing α]

/-! ## `grid.h` -/

/-- Conversion `static_cast<long int>(x)` of a real to an integer: truncation towards zero. -/
def static_cast_long (x : α) : ℤ :=
  if 0 ≤ x then ⌊x⌋ else ⌈x⌉

/-- Conversion `static_cast<float>(x)`.  The embedding has one number type and no rounding, so
the narrowing keeps the value; it is exact on the values at which the definitions are evaluated
below (small integers and halves), and no exactness of a float computation is derived from it. -/
def static_cast_float (x : α) : α := x

/-- `CoordinateGrid::CU_to_Idi` (grid.h, lines 35-40): `i = static_cast<long int>(xi + N_GHOSTS);
di = static_cast<float>(xi) - static_cast<float>(i); return {i, di}`. -/
def CU_to_Idi (N_GHOSTS : ℕ) (xi : α) : ℤ × α :=
  let i : ℤ := static_cast_long (xi + (N_GHOSTS : α))
  let di : α := static_cast_float xi - static_cast_float (i : α)
  (i, di)

/-- The class `CoordinateGrid<D>` (grid.h): its data members (the label is left out) and its
virtual interface, one field per overload (the suffix is the number of position arguments). -/
structure CoordinateGrid (α : Type) where
  Nx1 : ℤ
  Nx2 : ℤ
  Nx3 : ℤ
  x1_min : α
  x1_max : α
  x2_min : α
  x2_max : α
  x3_min : α
  x3_max : α
  coord_CU_to_Cart_1 : α → α
  coord_CU_to_Cart_2 : α → α → α × α
  coord_CU_to_Cart_3 : α → α → α → α × α × α
  coord_CART_to_CU_1 : α → α
  coord_CART_to_CU_2 : α → α → α × α
  coord_CART_to_CU_3 : α → α → α → α × α × α
  coord_CU_to_Sph_2 : α → α → α × α
  coord_CU_to_Sph_3 : α → α → α → α × α × α
  h11_1 : α → α
  h11_2 : α → α → α
  h11_3 : α → α → α → α
  h22_1 : α → α
  h22_2 : α → α → α
  h22_3 : α → α → α → α
  h33_1 : α → α
  h33_2 : α → α → α
  h33_3 : α → α → α → α
  sqrt_det_h_1 : α → α
  sqrt_det_h_2 : α → α → α
  sqrt_det_h_3 : α → α → α → α
  polar_area : α → α → α

/-- The class `CoordinateGrid` exactly as defined in grid.h: the constructor (lines 19-31) fills
the data members from `resolution` and `extent`, and every virtual function has the body
`return -1.0` (in every component for the tuple-valued ones). -/
def CoordinateGrid.base (resolution : List ℕ) (extent : List α) : CoordinateGrid α where
  Nx1 := if resolution.length > 0 then (resolution.getD 0 0 : ℤ) else 1
  Nx2 := if resolution.length > 1 then (resolution.getD 1 0 : ℤ) else 1
  Nx3 := if resolution.length > 2 then (resolution.getD 2 0 : ℤ) else 1
  x1_min := if resolution.length > 0 then extent.getD 0 0 else 0
  x1_max := if resolution.length > 0 then extent.getD 1 0 else 0
  x2_min := if resolution.length > 1 then extent.getD 2 0 else 0
  x2_max := if resolution.length > 1 then extent.getD 3 0 else 0
  x3_min := if resolution.length > 2 then extent.getD 4 0 else 0
  x3_max := if resolution.length > 2 then extent.getD 5 0 else 0
  coord_CU_to_Cart_1 := fun _ => -1
  coord_CU_to_Cart_2 := fun _ _ => (-1, -1)
  coord_CU_to_Cart_3 := fun _ _ _ => (-1, -1, -1)
  coord_CART_to_CU_1 := fun _ => -1
  coord_CART_to_CU_2 := fun _ _ => (-1, -1)
  coord_CART_to_CU_3 := fun _ _ _ => (-1, -1, -1)
  coord_CU_to_Sph_2 := fun _ _ => (-1, -1)
  coord_CU_to_Sph_3 := fun _ _ _ => (-1, -1, -1)
  h11_1 := fun _ => -1
  h11_2 := fun _ _ => -1
  h11_3 := fun _ _ _ => -1
  h22_1 := fun _ => -1
  h22_2 := fun _ _ => -1
  h22_3 := fun _ _ _ => -1
  h33_1 := fun _ => -1
  h33_2 := fun _ _ => -1
  h33_3 := fun _ _ _ => -1
  sqrt_det_h_1 := fun _ => -1
  sqrt_det_h_2 := fun _ _ => -1
  sqrt_det_h_3 := fun _ _ _ => -1
  polar_area := fun _ _ => -1

/-- A grid derived from the base class that overrides the metric components with a constant
`h` on all three axes (and leaves everything else as in the base class); an object on which the
vector transforms can be evaluated with a positive metric. -/
def CoordinateGrid.constMetric (resolution : List ℕ) (extent : List α) (h : α) :
    CoordinateGrid α :=
  { CoordinateGrid.base resolution extent with
    h11_1 := fun _ => h
    h11_2 := fun _ _ => h
    h11_3 := fun _ _ _ => h
    h22_1 := fun _ => h
    h22_2 := fun _ _ => h
    h22_3 := fun _ _ _ => h
    h33_1 := fun _ => h
    h33_2 := fun _ _ => h
    h33_3 := fun _ _ _ => h }

section vec_transforms

variable {β : Type} [Mul β] [Div β]

/-- `vec_CNT_to_HAT_x1(ax1, x1)`: `std::sqrt(h11(x1)) * ax1`. -/
def vec_CNT_to_HAT_x1_1 (sqrt : β → β) (g : CoordinateGrid β) (ax1 x1 : β) : β :=
  sqrt (g.h11_1 x1) * ax1

/-- `vec_CNT_to_HAT_x1(ax1, x1, x2)`: `std::sqrt(h11(x1, x2)) * ax1`. -/
def vec_CNT_to_HAT_x1_2 (sqrt : β → β) (g : CoordinateGrid β) (ax1 x1 x2 : β) : β :=
  sqrt (g.h11_2 x1 x2) * ax1

/-- `vec_CNT_to_HAT_x1(ax1, x1, x2, x3)`: `std::sqrt(h11(x1, x2, x3)) * ax1`. -/
def vec_CNT_to_HAT_x1_3 (sqrt : β → β) (g : CoordinateGrid β) (ax1 x1 x2 x3 : β) : β :=
  sqrt (g.h11_3 x1 x2 x3) * ax1

/-- `vec_CNT_to_HAT_x2(ax2, x1)`: `std::sqrt(h22(x1)) * ax2`. -/
def vec_CNT_to_HAT_x2_1 (sqrt : β → β) (g : CoordinateGrid β) (ax2 x1 : β) : β :=
  sqrt (g.h22_1 x1) * ax2

/-- `vec_CNT_to_HAT_x2(ax2, x1, x2)`: `std::sqrt(h22(x1, x2)) * ax2`. -/
def vec_CNT_to_HAT_x2_2 (sqrt : β → β) (g : CoordinateGrid β) (ax2 x1 x2 : β) : β :=
  sqrt (g.h22_2 x1 x2) * ax2

/-- `vec_CNT_to_HAT_x2(ax2, x1, x2, x3)`: `std::sqrt(h22(x1, x2, x3)) * ax2`. -/
def vec_CNT_to_HAT_x2_3 (sqrt : β → β) (g : CoordinateGrid β) (ax2 x1 x2 x3 : β) : β :=
  sqrt (g.h22_3 x1 x2 x3) * ax2

/-- `vec_CNT_to_HAT_x3(ax3, x1)`: `std::sqrt(h33(x1)) * ax3`. -/
def vec_CNT_to_HAT_x3_1 (sqrt : β → β) (g : CoordinateGrid β) (ax3 x1 : β) : β :=
  sqrt (g.h33_1 x1) * ax3

/-- `vec_CNT_to_HAT_x3(ax3, x1, x2)`: `std::sqrt(h33(x1, x2)) * ax3`. -/
def vec_CNT_to_HAT_x3_2 (sqrt : β → β) (g : CoordinateGrid β) (ax3 x1 x2 : β) : β :=
  sqrt (g.h33_2 x1 x2) * ax3

/-- `vec_CNT_to_HAT_x3(ax3, x1, x2, x3)`: `std::sqrt(h33(x1, x2, x3)) * ax3`. -/
def vec_CNT_to_HAT_x3_3 (sqrt : β → β) (g : CoordinateGrid β) (ax3 x1 x2 x3 : β) : β :=
  sqrt (g.h33_3 x1 x2 x3) * ax3

/-- `vec_HAT_to_CNT_x1(ax1, x1)`: `ax1 / std::sqrt(h11(x1))`. -/
def vec_HAT_to_CNT_x1_1 (sqrt : β → β) (g : CoordinateGrid β) (ax1 x1 : β) : β :=
  ax1 / sqrt (g.h11_1 x1)

/-- `vec_HAT_to_CNT_x1(ax1, x1, x2)`: `ax1 / std::sqrt(h11(x1, x2))`. -/
def vec_HAT_to_CNT_x1_2 (sqrt : β → β) (g : CoordinateGrid β) (ax1 x1 x2 : β) : β :=
  ax1 / sqrt (g.h11_2 x1 x2)

/-- `vec_HAT_to_CNT_x1(ax1, x1, x2, x3)`: `ax1 / std::sqrt(h11(x1, x2, x3))`. -/
def vec_HAT_to_CNT_x1_3 (sqrt : β → β) (g : CoordinateGrid β) (ax1 x1 x2 x3 : β) : β :=
  ax1 / sqrt (g.h11_3 x1 x2 x3)

/-- `vec_HAT_to_CNT_x2(ax2, x1)`: `ax2 / std::sqrt(h22(x1))`. -/
def vec_HAT_to_CNT_x2_1 (sqrt : β → β) (g : CoordinateGrid β) (ax2 x1 : β) : β :=
  ax2 / sqrt (g.h22_1 x1)

/-- `vec_HAT_to_CNT_x2(ax2, x1, x2)`: `ax2 / std::sqrt(h22(x1, x2))`. -/
def vec_HAT_to_CNT_x2_2 (sqrt : β → β) (g : CoordinateGrid β) (ax2 x1 x2 : β) : β :=
  ax2 / sqrt (g.h22_2 x1 x2)

/-- `vec_HAT_to_CNT_x2(ax2, x1, x2, x3)`: `ax2 / std::sqrt(h22(x1, x2, x3))`. -/
def vec_HAT_to_CNT_x2_3 (sqrt : β → β) (g : CoordinateGrid β) (ax2 x1 x2 x3 : β) : β :=
  ax2 / sqrt (g.h22_3 x1 x2 x3)

/-- `vec_HAT_to_CNT_x3(ax3, x1)`: `ax3 / std::sqrt(h33(x1))`. -/
def vec_HAT_to_CNT_x3_1 (sqrt : β → β) (g : CoordinateGrid β) (ax3 x1 : β) : β :=
  ax3 / sqrt (g.h33_1 x1)

/-- `vec_HAT_to_CNT_x3(ax3, x1, x2)`: `ax3 / std::sqrt(h33(x1, x2))`. -/
def vec_HAT_to_CNT_x3_2 (sqrt : β → β) (g : CoordinateGrid β) (ax3 x1 x2 : β) : β :=
  ax3 / sqrt (g.h33_2 x1 x2)

/-- `vec_HAT_to_CNT_x3(ax3, x1, x2, x3)`: `ax3 / std::sqrt(h33(x1, x2, x3))`. -/
def vec_HAT_to_CNT_x3_3 (sqrt : β → β) (g : CoordinateGrid β) (ax3 x1 x2 x3 : β) : β :=
  ax3 / sqrt (g.h33_3 x1 x2 x3)

end vec_transforms

/-! ## `pic_particles_deposit.hpp` -/

/-- `SQR(x)` of `global.h`: the square. -/
def SQR (x : α) : α := x * x

/-- `HALF` of `global.h`. -/
def HALF : α := 1 / 2

/-- `ONE` of `global.h`. -/
def ONE : α := 1

/-- The particle arrays read by `Deposit` through the accessors `i1(p)`, `dx1(p)`, `ux1(p)`, ...
of `Particles<D, PIC>`: cell indices, sub-cell offsets and the three momentum components. -/
structure Particles (α : Type) where
  npart : ℕ
  i1 : ℕ → ℤ
  i2 : ℕ → ℤ
  i3 : ℕ → ℤ
  dx1 : ℕ → α
  dx2 : ℕ → α
  dx3 : ℕ → α
  ux1 : ℕ → α
  ux2 : ℕ → α
  ux3 : ℕ → α

/-- The part of `Meshblock<D, PIC>` visible to `Deposit`: the field arrays `em` (six components),
`cur` (the current `J`, three components) over `n`-dimensional cell indices, and the metric
member function `metric.v_Cart2Cntrv(x, u, v)` (its result `v` as a function of `x` and `u`). -/
structure Meshblock (α : Type) (n : ℕ) where
  em : (Fin n → ℕ) → Fin 6 → α
  cur : (Fin n → ℕ) → Fin 3 → α
  v_Cart2Cntrv : (Fin n → α) → (Fin 3 → α) → (Fin 3 → α)

/-- The functor `Deposit<D>` with its four data members. -/
structure Deposit (α : Type) (n : ℕ) where
  m_mblock : Meshblock α n
  m_particles : Particles α
  m_coeff : α
  m_dt : α

/-- The seven output parameters of `getDepositInterval`. -/
structure DepositInterval (α : Type) (n : ℕ) where
  Ip_f : Fin n → ℤ
  dIp_f : Fin n → α
  Ip_i : Fin n → ℤ
  dIp_i : Fin n → α
  xp_f : Fin n → α
  xp_i : Fin n → α
  xp_r : Fin n → α

/-- `Deposit<Dimension::ONE_D>::getDepositInterval` (lines 76-110). -/
def getDepositInterval_ONE_D (N_GHOSTS : ℕ) (sqrt : α → α) (self : Deposit α 1) (p : ℕ) :
    DepositInterval α 1 :=
  let Ip_f0 : ℤ := self.m_particles.i1 p
  let dIp_f0 : α := self.m_particles.dx1 p
  let xp_f0 : α := (Ip_f0 : α) + dIp_f0
  let vp : Fin 3 → α := self.m_mblock.v_Cart2Cntrv ![xp_f0]
    ![self.m_particles.ux1 p, self.m_particles.ux2 p, self.m_particles.ux3 p]
  let inv_energy : α :=
    SQR (self.m_particles.ux1 p) + SQR (self.m_particles.ux2 p) + SQR (self.m_particles.ux3 p)
  let inv_energy : α := ONE / sqrt (ONE + inv_energy)
  let vp : Fin 3 → α := fun i => vp i * inv_energy
  let xp_i0 : α := xp_f0 - self.m_dt * vp 0
  let xmid0 : α := HALF * (xp_i0 + xp_f0)
  let Idi1 : ℤ × α := CU_to_Idi N_GHOSTS xp_f0
  let Ip_i0 : ℤ := Idi1.1
  let dIp_i0 : α := Idi1.2
  let xp_r0 : α := min (((min Ip_i0 Ip_f0 + 1 : ℤ) : α)) (max (((max Ip_i0 Ip_f0 : ℤ) : α)) xmid0)
  { Ip_f := ![Ip_f0], dIp_f := ![dIp_f0], Ip_i := ![Ip_i0], dIp_i := ![dIp_i0],
    xp_f := ![xp_f0], xp_i := ![xp_i0], xp_r := ![xp_r0] }

/-- `Deposit<Dimension::TWO_D>::getDepositInterval` (lines 111-157). -/
def getDepositInterval_TWO_D (N_GHOSTS : ℕ) (sqrt : α → α) (self : Deposit α 2) (p : ℕ) :
    DepositInterval α 2 :=
  let Ip_f0 : ℤ := self.m_particles.i1 p
  let dIp_f0 : α := self.m_particles.dx1 p
  let Ip_f1 : ℤ := self.m_particles.i2 p
  let dIp_f1 : α := self.m_particles.dx2 p
  let xp_f0 : α := (Ip_f0 : α) + dIp_f0
  let xp_f1 : α := (Ip_f1 : α) + dIp_f1
  let vp : Fin 3 → α := self.m_mblock.v_Cart2Cntrv ![xp_f0, xp_f1]
    ![self.m_particles.ux1 p, self.m_particles.ux2 p, self.m_particles.ux3 p]
  let inv_energy : α :=
    SQR (self.m_particles.ux1 p) + SQR (self.m_particles.ux2 p) + SQR (self.m_particles.ux3 p)
  let inv_energy : α := ONE / sqrt (ONE + inv_energy)
  let vp : Fin 3 → α := fun i => vp i * inv_energy
  let xp_i0 : α := xp_f0 - self.m_dt * vp 0
  let xp_i1 : α := xp_f1 - self.m_dt * vp 1
  let xmid0 : α := HALF * (xp_i0 + xp_f0)
  let xmid1 : α := HALF * (xp_i1 + xp_f1)
  let Idi1 : ℤ × α := CU_to_Idi N_GHOSTS xp_f0
  let Idi2 : ℤ × α := CU_to_Idi N_GHOSTS xp_f1
  let Ip_i0 : ℤ := Idi1.1
  let dIp_i0 : α := Idi1.2
  let Ip_i1 : ℤ := Idi2.1
  let dIp_i1 : α := Idi2.2
  let xp_r0 : α := min (((min Ip_i0 Ip_f0 + 1 : ℤ) : α)) (max (((max Ip_i0 Ip_f0 : ℤ) : α)) xmid0)
  let xp_r1 : α := min (((min Ip_i1 Ip_f1 + 1 : ℤ) : α)) (max (((max Ip_i1 Ip_f1 : ℤ) : α)) xmid1)
  { Ip_f := ![Ip_f0, Ip_f1], dIp_f := ![dIp_f0, dIp_f1], Ip_i := ![Ip_i0, Ip_i1],
    dIp_i := ![dIp_i0, dIp_i1], xp_f := ![xp_f0, xp_f1], xp_i := ![xp_i0, xp_i1],
    xp_r := ![xp_r0, xp_r1] }

/-- `Deposit<Dimension::THREE_D>::getDepositInterval` (lines 158-213). -/
def getDepositInterval_THREE_D (N_GHOSTS : ℕ) (sqrt : α → α) (self : Deposit α 3) (p : ℕ) :
    DepositInterval α 3 :=
  let Ip_f0 : ℤ := self.m_particles.i1 p
  let dIp_f0 : α := self.m_particles.dx1 p
  let Ip_f1 : ℤ := self.m_particles.i2 p
  let dIp_f1 : α := self.m_particles.dx2 p
  let Ip_f2 : ℤ := self.m_particles.i3 p
  let dIp_f2 : α := self.m_particles.dx3 p
  let xp_f0 : α := (Ip_f0 : α) + dIp_f0
  let xp_f1 : α := (Ip_f1 : α) + dIp_f1
  let xp_f2 : α := (Ip_f2 : α) + dIp_f2
  let vp : Fin 3 → α := self.m_mblock.v_Cart2Cntrv ![xp_f0, xp_f1, xp_f2]
    ![self.m_particles.ux1 p, self.m_particles.ux2 p, self.m_particles.ux3 p]
  let inv_energy : α :=
    SQR (self.m_particles.ux1 p) + SQR (self.m_particles.ux2 p) + SQR (self.m_particles.ux3 p)
  let inv_energy : α := ONE / sqrt (ONE + inv_energy)
  let vp : Fin 3 → α := fun i => vp i * inv_energy
  let xp_i0 : α := xp_f0 - self.m_dt * vp 0
  let xp_i1 : α := xp_f1 - self.m_dt * vp 1
  let xp_i2 : α := xp_f2 - self.m_dt * vp 2
  let xmid0 : α := HALF * (xp_i0 + xp_f0)
  let xmid1 : α := HALF * (xp_i1 + xp_f1)
  let xmid2 : α := HALF * (xp_i2 + xp_f2)
  let Idi1 : ℤ × α := CU_to_Idi N_GHOSTS xp_f0
  let Idi2 : ℤ × α := CU_to_Idi N_GHOSTS xp_f1
  let Idi3 : ℤ × α := CU_to_Idi N_GHOSTS xp_f2
  let Ip_i0 : ℤ := Idi1.1
  let dIp_i0 : α := Idi1.2
  let Ip_i1 : ℤ := Idi2.1
  let dIp_i1 : α := Idi2.2
  let Ip_i2 : ℤ := Idi3.1
  let dIp_i2 : α := Idi3.2
  let xp_r0 : α := min (((min Ip_i0 Ip_f0 + 1 : ℤ) : α)) (max (((max Ip_i0 Ip_f0 : ℤ) : α)) xmid0)
  let xp_r1 : α := min (((min Ip_i1 Ip_f1 + 1 : ℤ) : α)) (max (((max Ip_i1 Ip_f1 : ℤ) : α)) xmid1)
  let xp_r2 : α := min (((min Ip_i2 Ip_f2 + 1 : ℤ) : α)) (max (((max Ip_i2 Ip_f2 : ℤ) : α)) xmid2)
  { Ip_f := ![Ip_f0, Ip_f1, Ip_f2], dIp_f := ![dIp_f0, dIp_f1, dIp_f2],
    Ip_i := ![Ip_i0, Ip_i1, Ip_i2], dIp_i := ![dIp_i0, dIp_i1, dIp_i2],
    xp_f := ![xp_f0, xp_f1, xp_f2], xp_i := ![xp_i0, xp_i1, xp_i2],
    xp_r := ![xp_r0, xp_r1, xp_r2] }

/-- The template parameter `Dimension D` of `Deposit<D>`. -/
inductive Dimension where
  | ONE_D
  | TWO_D
  | THREE_D
  deriving DecidableEq, Repr

/-- Number of spatial axes of a `Dimension`. -/
@[reducible]
def Dimension.rank : Dimension → ℕ
  | .ONE_D => 1
  | .TWO_D => 2
  | .THREE_D => 3

/-- `Deposit<D>::getDepositInterval`: the member is declared in the class template and defined
by the three explicit specialisations above. -/
def getDepositInterval (N_GHOSTS : ℕ) (sqrt : α → α) :
    (D : Dimension) → Deposit α D.rank → ℕ → DepositInterval α D.rank
  | .ONE_D => getDepositInterval_ONE_D N_GHOSTS sqrt
  | .TWO_D => getDepositInterval_TWO_D N_GHOSTS sqrt
  | .THREE_D => getDepositInterval_THREE_D N_GHOSTS sqrt

/-- `Deposit<D>::operator()(p)` (lines 64-72): declares the locals, calls `getDepositInterval`
to fill them, and returns.  The result is the state of the functor (mesh block with its field
arrays, particle arrays, coefficients) after the call. -/
def Deposit.call (N_GHOSTS : ℕ) (sqrt : α → α) (D : Dimension) (self : Deposit α D.rank)
    (p : ℕ) : Deposit α D.rank :=
  let _locals : DepositInterval α D.rank := getDepositInterval N_GHOSTS sqrt D self p
  self

/-- `Deposit<D>::depositCurrents()` (lines 37-40): the kernel is run for every particle index
of the range `[0, npart)`; the iterations are sequenced in index order. -/
def Deposit.depositCurrents (N_GHOSTS : ℕ) (sqrt : α → α) (D : Dimension)
    (self : Deposit α D.rank) : Deposit α D.rank :=
  (List.range self.m_particles.npart).foldl (fun s p => Deposit.call N_GHOSTS sqrt D s p) self

/-! ## Concrete inputs -/

/-- A flat mesh block with zero fields, zero current and `v_Cart2Cntrv(x, u) = u`. -/
def flatMeshblock (n : ℕ) : Meshblock α n where
  em := fun _ _ => 0
  cur := fun _ _ => 0
  v_Cart2Cntrv := fun _ u => u

/-- One particle stored at cell `i` with offset `dx` on every axis and momentum `(u, 0, 0)`. -/
def oneParticle (i : ℤ) (dx u : α) : Particles α where
  npart := 1
  i1 := fun _ => i
  i2 := fun _ => i
  i3 := fun _ => i
  dx1 := fun _ => dx
  dx2 := fun _ => dx
  dx3 := fun _ => dx
  ux1 := fun _ => u
  ux2 := fun _ => 0
  ux3 := fun _ => 0

/-- A deposit functor over the flat mesh block with one particle and time step `dt`. -/
def sampleDeposit (n : ℕ) (i : ℤ) (dx u dt : α) : Deposit α n where
  m_mblock := flatMeshblock n
  m_particles := oneParticle i dx u
  m_coeff := 1
  m_dt := dt

/-! ## `global/utils/error.h` and the exceptions of the standard library -/

/-- The exceptions raised in the embedded code, with their `what()` text, and the abort of a
failed `assert`. -/
inductive Exception where
  | invalid_argument (what : String)
  | logic_error (what : String)
  | runtime_error (what : String)
  | assertion_failed
  deriving DecidableEq, Repr

/-- `raise::Error` (error.h, lines 57-75): after the log records (and, in an MPI build, the
call of `MPI_Abort`), which are external effects left out of the embedding, the function throws
`std::logic_error(msg + " " + file + " : " + func + " @ " + std::to_string(line))`. -/
def raise.Error (msg file func : String) (line : ℤ) : Except Exception Unit :=
  .error (.logic_error (msg ++ " " ++ file ++ " : " ++ func ++ " @ " ++ toString line))

/-- `raise::Fatal` (error.h, lines 77-95): as `raise::Error`, throwing `std::runtime_error`. -/
def raise.Fatal (msg file func : String) (line : ℤ) : Except Exception Unit :=
  .error (.runtime_error (msg ++ " " ++ file ++ " : " ++ func ++ " @ " ++ toString line))

/-- `raise::ErrorIf` (error.h, lines 97-105). -/
def raise.ErrorIf (condition : Bool) (msg file func : String) (line : ℤ) :
    Except Exception Unit :=
  if condition then raise.Error msg file func line else .ok ()

/-- `raise::FatalIf` (error.h, lines 107-115). -/
def raise.FatalIf (condition : Bool) (msg file func : String) (line : ℤ) :
    Except Exception Unit :=
  if condition then raise.Fatal msg file func line else .ok ()

/-! ## `sim_params.cpp` -/

/-- The pusher kinds named in sim_params.cpp. -/
inductive ParticlePusher where
  | UNDEFINED_PUSHER
  | BORIS_PUSHER
  | VAY_PUSHER
  | PHOTON_PUSHER
  deriving DecidableEq, Repr

/-- The coordinate systems named in sim_params.cpp. -/
inductive CoordinateSystem where
  | UNDEFINED_COORD
  | CARTESIAN_COORD
  | SPHERICAL_COORD
  | CYLINDRICAL_COORD
  deriving DecidableEq, Repr

/-- The boundary kinds named in sim_params.cpp. -/
inductive BoundaryCondition where
  | UNDEFINED_BC
  | PERIODIC_BC
  | OPEN_BC
  deriving DecidableEq, Repr

/-- The simulation types named in sim_params.cpp. -/
inductive SimulationType where
  | UNDEFINED_SIM
  | PIC_SIM
  deriving DecidableEq, Repr

/-- The record `ParticleSpecies(label, mass, charge, maxnpart, pusher)`. -/
structure ParticleSpecies (α : Type) where
  label : String
  mass : α
  charge : α
  maxnpart : ℤ
  pusher : ParticlePusher

/-- The keys of one input section `species_k`; a key read with a default value is optional. -/
structure SpeciesInput (α : Type) where
  label : Option String
  mass : α
  charge : α
  maxnpart : α
  pusher : Option String

/-- The input (`toml::value`) as seen through `readFromInput`: one field per section and key
read by the constructor.  A key read with a default value is optional; the keys read without
one are present.  `species k` is the section `species_k`. -/
structure InputData (α : Type) where
  simulation_title : Option String
  simulation_runtime : α
  algorithm_correction : α
  particles_n_species : ℤ
  species : ℕ → SpeciesInput α
  algorithm_particle_shape : Option ℤ
  domain_coord_system : Option String
  domain_resolution : List ℕ
  domain_extent : List α
  domain_boundaries : List String
  units_ppc0 : α
  units_larmor0 : α
  units_skindepth0 : α
  algorithm_CFL : Option α

/-- The data members of `SimulationParams` assigned by the constructor. -/
structure SimulationParams (α : Type) where
  m_inputdata : InputData α
  m_title : String
  m_runtime : α
  m_correction : α
  m_species : List (ParticleSpecies α)
  m_prtl_shape : ℤ
  m_simtype : SimulationType
  m_coord_system : CoordinateSystem
  m_resolution : List ℕ
  m_extent : List α
  m_boundaries : List BoundaryCondition
  m_ppc0 : α
  m_larmor0 : α
  m_skindepth0 : α
  m_sigma0 : α
  m_charge0 : α
  m_B0 : α
  m_cfl : α

/-- Conversion `static_cast<short>(n)`: reduction to the 16-bit two's complement range. -/
def static_cast_short (n : ℤ) : ℤ :=
  (n + 32768) % 65536 - 32768

/-- Lines 33-40 of the species loop: the pusher chosen from mass, charge and `pusher_str`. -/
def selectPusher (mass charge : α) (pusher_str : String) : ParticlePusher :=
  if mass = 0 ∧ charge = 0 then ParticlePusher.PHOTON_PUSHER
  else if pusher_str = "Vay" then ParticlePusher.VAY_PUSHER
  else if pusher_str = "Boris" then ParticlePusher.BORIS_PUSHER
  else ParticlePusher.UNDEFINED_PUSHER

/-- Body of the species loop (lines 25-41) for the loop index `i`. -/
def readSpecies (inputdata : InputData α) (i : ℕ) : ParticleSpecies α :=
  let label : String := (inputdata.species (i + 1)).label.getD ("s" ++ toString (i + 1))
  let mass : α := (inputdata.species (i + 1)).mass
  let charge : α := (inputdata.species (i + 1)).charge
  let maxnpart : ℤ := static_cast_long (inputdata.species (i + 1)).maxnpart
  let pusher_str : String := (inputdata.species (i + 1)).pusher.getD "Boris"
  { label := label, mass := mass, charge := charge, maxnpart := maxnpart,
    pusher := selectPusher mass charge pusher_str }

/-- The boundary kind pushed for one input string (lines 74-80). -/
def readBoundary (bc : String) : BoundaryCondition :=
  if bc = "PERIODIC" then BoundaryCondition.PERIODIC_BC
  else if bc = "OPEN" then BoundaryCondition.OPEN_BC
  else BoundaryCondition.UNDEFINED_BC

/-- The loop over `boundaries` (lines 72-83): push the kind of `bc`, increment `b`, and leave
the loop once `b >= static_cast<short>(dim)`. -/
def readBoundaries (dim : ℤ) : List String → ℤ → List BoundaryCondition → List BoundaryCondition
  | [], _, m_boundaries => m_boundaries
  | bc :: rest, b, m_boundaries =>
    let m_boundaries := m_boundaries ++ [readBoundary bc]
    let b := b + 1
    if b ≥ dim then m_boundaries else readBoundaries dim rest b m_boundaries

/-- Lines 49-57: the coordinate system selected by the string `coords`, or the exception. -/
def readCoordSystem (coords : String) : Except Exception CoordinateSystem :=
  if coords = "Cartesian" then .ok CoordinateSystem.CARTESIAN_COORD
  else if coords = "Spherical" then .ok CoordinateSystem.SPHERICAL_COORD
  else if coords = "Cylindrical" then .ok CoordinateSystem.CYLINDRICAL_COORD
  else .error (.invalid_argument "Unknown coordinate system specified in the input.")

/-- `SimulationParams::SimulationParams(inputdata, dim)` (lines 16-95).  The value of the
enumerator `dim` is the number of axes; the result is the constructed object, or the exception
that leaves the constructor (`assertion_failed` for the `assert` of line 94). -/
def SimulationParams.ctor (inputdata : InputData α) (dim : Dimension) :
    Except Exception (SimulationParams α) :=
  let m_title : String := inputdata.simulation_title.getD "PIC_Sim"
  let m_runtime : α := inputdata.simulation_runtime
  let m_correction : α := inputdata.algorithm_correction
  let nspec : ℤ := inputdata.particles_n_species
  let m_species : List (ParticleSpecies α) :=
    (List.range nspec.toNat).map (fun i => readSpecies inputdata i)
  let m_prtl_shape : ℤ := inputdata.algorithm_particle_shape.getD 1
  let m_simtype : SimulationType := SimulationType.PIC_SIM
  let coords : String := inputdata.domain_coord_system.getD "Cartesian"
  match readCoordSystem coords with
  | .error e => .error e
  | .ok m_coord_system =>
  let m_resolution : List ℕ := inputdata.domain_resolution
  let m_extent : List α := inputdata.domain_extent
  if static_cast_short m_resolution.length < static_cast_short dim.rank
      ∨ static_cast_short m_extent.length < 2 * static_cast_short dim.rank then
    .error (.invalid_argument "Not enough values in `extent` or `resolution` input.")
  else
  let m_resolution : List ℕ := m_resolution.take (static_cast_short dim.rank).toNat
  let m_extent : List α := m_extent.take (2 * static_cast_short dim.rank).toNat
  let boundaries : List String := inputdata.domain_boundaries
  let m_boundaries : List BoundaryCondition :=
    readBoundaries (static_cast_short dim.rank) boundaries 0 []
  let m_ppc0 : α := inputdata.units_ppc0
  let m_larmor0 : α := inputdata.units_larmor0
  let m_skindepth0 : α := inputdata.units_skindepth0
  let m_sigma0 : α := m_larmor0 * m_larmor0 / (m_skindepth0 * m_skindepth0)
  let m_charge0 : α := 1 / (m_ppc0 * m_skindepth0 * m_skindepth0)
  let m_B0 : α := 1 / m_larmor0
  let m_cfl : α := inputdata.algorithm_CFL.getD (95 / 100)
  if ¬ (m_cfl > 0) then .error .assertion_failed
  else
  .ok { m_inputdata := inputdata, m_title := m_title, m_runtime := m_runtime,
        m_correction := m_correction, m_species := m_species, m_prtl_shape := m_prtl_shape,
        m_simtype := m_simtype, m_coord_system := m_coord_system,
        m_resolution := m_resolution, m_extent := m_extent, m_boundaries := m_boundaries,
        m_ppc0 := m_ppc0, m_larmor0 := m_larmor0, m_skindepth0 := m_skindepth0,
        m_sigma0 := m_sigma0, m_charge0 := m_charge0, m_B0 := m_B0, m_cfl := m_cfl }

/-- `SimulationParams::verify()` (lines 97-106): the three checks in order; the loop over
`m_boundaries` throws at the first undefined entry. -/
def SimulationParams.verify (self : SimulationParams α) : Except Exception Unit :=
  if self.m_simtype = SimulationType.UNDEFINED_SIM then
    .error (.logic_error "ERROR: simulation type unspecified.")
  else if self.m_coord_system = CoordinateSystem.UNDEFINED_COORD then
    .error (.logic_error "ERROR: coordinate system unspecified.")
  else if BoundaryCondition.UNDEFINED_BC ∈ self.m_boundaries then
    .error (.logic_error "ERROR: boundary conditions unspecified.")
  else .ok ()

/-! ## `framework/fields.cpp` and `objects/meshblock.h` -/

namespace framework

/-- The second template argument of `Fields<D, S>` in fields.cpp. -/
inductive SimType where
  | TypePIC
  | TypeGRPIC
  deriving DecidableEq, Repr

/-- The arrays of a `Fields<D, S>` object: each view allocated by the constructor with its label
and its extents along the mesh axes, and the host mirrors created from them. -/
structure Fields where
  views : List (String × List ℕ)
  mirrors : List (String × List ℕ)
  deriving DecidableEq, Repr

/-- The expression `res[d] + 2 * N_GHOSTS` of fields.cpp: `res[d]` is an `unsigned int` and
`N_GHOSTS` an integer constant, so the sum is computed on 32-bit unsigned values and wraps. -/
def uint_extent (N_GHOSTS : ℕ) (res : List ℕ) (d : ℕ) : ℕ :=
  (res.getD d 0 + 2 * N_GHOSTS) % 4294967296

/-- The constructors `Fields<D, S>::Fields(res)` of fields.cpp (lines 15-43 and 58-84), for a
vector `res` of `unsigned int` values.  There is no result where the source has none: the file
has no constructor for `Fields<Dim1, TypeGRPIC>`, and for `res` with fewer than `D` entries the
read `res[d]` is out of bounds. -/
def Fields.ctor (N_GHOSTS : ℕ) (S : SimType) (D : Dimension) (res : List ℕ) : Option Fields :=
  if res.length < D.rank then none
  else
  match S, D with
  | .TypePIC, .ONE_D =>
    some { views := [("EM", [uint_extent N_GHOSTS res 0]),
                     ("J", [uint_extent N_GHOSTS res 0]),
                     ("J0", [uint_extent N_GHOSTS res 0])],
           mirrors := [("EM", [uint_extent N_GHOSTS res 0]),
                       ("J", [uint_extent N_GHOSTS res 0])] }
  | .TypePIC, .TWO_D =>
    some { views := [("EM", [uint_extent N_GHOSTS res 0, uint_extent N_GHOSTS res 1]),
                     ("J", [uint_extent N_GHOSTS res 0, uint_extent N_GHOSTS res 1]),
                     ("J0", [uint_extent N_GHOSTS res 0, uint_extent N_GHOSTS res 1])],
           mirrors := [("EM", [uint_extent N_GHOSTS res 0, uint_extent N_GHOSTS res 1]),
                       ("J", [uint_extent N_GHOSTS res 0, uint_extent N_GHOSTS res 1])] }
  | .TypePIC, .THREE_D =>
    some { views := [("EM", [uint_extent N_GHOSTS res 0, uint_extent N_GHOSTS res 1,
                             uint_extent N_GHOSTS res 2]),
                     ("J", [uint_extent N_GHOSTS res 0, uint_extent N_GHOSTS res 1,
                            uint_extent N_GHOSTS res 2]),
                     ("J0", [uint_extent N_GHOSTS res 0, uint_extent N_GHOSTS res 1,
                             uint_extent N_GHOSTS res 2])],
           mirrors := [("EM", [uint_extent N_GHOSTS res 0, uint_extent N_GHOSTS res 1,
                               uint_extent N_GHOSTS res 2]),
                       ("J", [uint_extent N_GHOSTS res 0, uint_extent N_GHOSTS res 1,
                              uint_extent N_GHOSTS res 2])] }
  | .TypeGRPIC, .ONE_D => none
  | .TypeGRPIC, .TWO_D =>
    some { views := [("EM", [uint_extent N_GHOSTS res 0, uint_extent N_GHOSTS res 1]),
                     ("J", [uint_extent N_GHOSTS res 0, uint_extent N_GHOSTS res 1]),
                     ("J0", [uint_extent N_GHOSTS res 0, uint_extent N_GHOSTS res 1]),
                     ("AUX", [uint_extent N_GHOSTS res 0, uint_extent N_GHOSTS res 1]),
                     ("EM0", [uint_extent N_GHOSTS res 0, uint_extent N_GHOSTS res 1]),
                     ("APHI", [uint_extent N_GHOSTS res 0, uint_extent N_GHOSTS res 1])],
           mirrors := [("EM", [uint_extent N_GHOSTS res 0, uint_extent N_GHOSTS res 1]),
                       ("J", [uint_extent N_GHOSTS res 0, uint_extent N_GHOSTS res 1]),
                       ("APHI", [uint_extent N_GHOSTS res 0, uint_extent N_GHOSTS res 1])] }
  | .TypeGRPIC, .THREE_D =>
    some { views := [("EM", [uint_extent N_GHOSTS res 0, uint_extent N_GHOSTS res 1,
                             uint_extent N_GHOSTS res 2]),
                     ("J", [uint_extent N_GHOSTS res 0, uint_extent N_GHOSTS res 1,
                            uint_extent N_GHOSTS res 2]),
                     ("J0", [uint_extent N_GHOSTS res 0, uint_extent N_GHOSTS res 1,
                             uint_extent N_GHOSTS res 2]),
                     ("AUX", [uint_extent N_GHOSTS res 0, uint_extent N_GHOSTS res 1,
                              uint_extent N_GHOSTS res 2]),
                     ("EM0", [uint_extent N_GHOSTS res 0, uint_extent N_GHOSTS res 1,
                              uint_extent N_GHOSTS res 2]),
                     ("APHI", [uint_extent N_GHOSTS res 0, uint_extent N_GHOSTS res 1,
                               uint_extent N_GHOSTS res 2])],
           mirrors := [("EM", [uint_extent N_GHOSTS res 0, uint_extent N_GHOSTS res 1,
                               uint_extent N_GHOSTS res 2]),
                       ("J", [uint_extent N_GHOSTS res 0, uint_extent N_GHOSTS res 1,
                              uint_extent N_GHOSTS res 2]),
                       ("APHI", [uint_extent N_GHOSTS res 0, uint_extent N_GHOSTS res 1,
                                 uint_extent N_GHOSTS res 2])] }

end framework

namespace objects

/-- The class `Meshblock` of objects/meshblock.h: the extent and the resolution (the nine field
arrays, whose constructor is not in the header, are left out). -/
structure Meshblock (α : Type) where
  m_extent : List α
  m_resolution : List ℕ

/-- `Meshblock::get_imin()`. -/
def Meshblock.get_imin (N_GHOSTS : ℕ) (_self : Meshblock α) : ℕ := N_GHOSTS

/-- `Meshblock::get_imax()`. -/
def Meshblock.get_imax (N_GHOSTS : ℕ) (self : Meshblock α) : ℕ :=
  N_GHOSTS + self.m_resolution.getD 0 0

/-- `Meshblock::get_jmin()`. -/
def Meshblock.get_jmin (N_GHOSTS : ℕ) (_self : Meshblock α) : ℕ := N_GHOSTS

/-- `Meshblock::get_jmax()`. -/
def Meshblock.get_jmax (N_GHOSTS : ℕ) (self : Meshblock α) : ℕ :=
  N_GHOSTS + self.m_resolution.getD 1 0

/-- `Meshblock::get_kmin()`. -/
def Meshblock.get_kmin (N_GHOSTS : ℕ) (_self : Meshblock α) : ℕ := N_GHOSTS

/-- `Meshblock::get_kmax()`. -/
def Meshblock.get_kmax (N_GHOSTS : ℕ) (self : Meshblock α) : ℕ :=
  N_GHOSTS + self.m_resolution.getD 2 0

end objects

/-! ## `engines/pic/currents/currents_ampere.cpp` -/

namespace engines

/-- The accessors `q0()`, `n0()`, `B0()`, `V0()` of the parameter object. -/
structure Params (α : Type) where
  q0 : α
  n0 : α
  B0 : α
  V0 : α

/-- The part of the mesh block used by `AmpereCurrents`: the field array `em` (components 0-2
electric, 3-5 magnetic) and the current array `cur` over cell index tuples, `timestep()`, and
the bounds `i1_min()`, ..., `i3_max()` of the active cells. -/
structure Meshblock (α : Type) where
  em : List ℕ → Fin 6 → α
  cur : List ℕ → Fin 3 → α
  timestep : α
  i1_min : ℕ
  i1_max : ℕ
  i2_min : ℕ
  i2_max : ℕ
  i3_min : ℕ
  i3_max : ℕ

/-- The object `PIC<D>`: its mesh block and its parameters. -/
structure PIC (α : Type) where
  meshblock : Meshblock α
  params : Params α

/-- Modelled from the spec: `CreateRangePolicy<D>(lo, hi)` (declared in wrapper.h, not in the
sources at hand) is the range of all index tuples `i` with `lo[d] <= i[d] < hi[d]` on every
axis, here as the list of these tuples in lexicographic order. -/
def CreateRangePolicy : List ℕ → List ℕ → List (List ℕ)
  | [], _ => [[]]
  | _ :: _, [] => []
  | lo :: los, hi :: his =>
    (List.range' lo (hi - lo)).flatMap (fun i => (CreateRangePolicy los his).map (fun t => i :: t))

/-- Modelled from the spec: `Meshblock::rangeActiveCells()` (not in the sources at hand) is the
range of the active cells, `[i_min, i_max)` on each of the `D` axes. -/
def Meshblock.rangeActiveCells (D : Dimension) (mblock : Meshblock α) : List (List ℕ) :=
  match D with
  | .ONE_D => CreateRangePolicy [mblock.i1_min] [mblock.i1_max]
  | .TWO_D => CreateRangePolicy [mblock.i1_min, mblock.i2_min] [mblock.i1_max, mblock.i2_max]
  | .THREE_D => CreateRangePolicy [mblock.i1_min, mblock.i2_min, mblock.i3_min]
      [mblock.i1_max, mblock.i2_max, mblock.i3_max]

/-- Modelled from the spec: the kernel `CurrentsAmpere_kernel<D>(mblock, coeff, inv_n0)` of
currents_ampere.hpp (not in the sources at hand), applied at the cell `idx`.  By the header of
currents_ampere.cpp and the Ampère update of the specification the kernel adds `coeff * J` to
the electric field of the cell; it is handed `inv_n0`, of which neither says a use. -/
def CurrentsAmpere_kernel (coeff _inv_n0 : α) (mblock : Meshblock α) (idx : List ℕ) :
    Meshblock α :=
  { mblock with
    em := fun j k =>
      if h : j = idx ∧ k.val < 3 then mblock.em j k + coeff * mblock.cur j ⟨k.val, h.2⟩
      else mblock.em j k }

/-- Modelled from the spec: the kernel `CurrentsAmperePoles_kernel<Dim2>(mblock, coeff, inv_n0)`
(not in the sources at hand), launched on the index `i1`: the same addition of `coeff * J` on
the axis cell `(i1, i2_min)` that the interior launch skips. -/
def CurrentsAmperePoles_kernel (coeff inv_n0 : α) (mblock : Meshblock α) (idx : List ℕ) :
    Meshblock α :=
  CurrentsAmpere_kernel coeff inv_n0 mblock (idx ++ [mblock.i2_min])

/-- `Kokkos::parallel_for(label, range, kernel)`: the kernel is applied at every index of the
range, sequenced in the order of the list. -/
def parallel_for (range : List (List ℕ)) (kernel : Meshblock α → List ℕ → Meshblock α)
    (mblock : Meshblock α) : Meshblock α :=
  range.foldl kernel mblock

/-- The constant `coeff` of `AmpereCurrents` (lines 34-35 with `MINKOWSKI_METRIC`, lines 52-53
without). -/
def AmpereCurrents_coeff (MINKOWSKI_METRIC : Bool) (self : PIC α) : α :=
  if MINKOWSKI_METRIC then
    -self.meshblock.timestep * self.params.q0 * self.params.n0 /
      (self.params.B0 * self.params.V0)
  else
    -self.meshblock.timestep * self.params.q0 * self.params.n0 / self.params.B0

/-- The constant `inv_n0` of `AmpereCurrents` (lines 36 and 54). -/
def AmpereCurrents_inv_n0 (self : PIC α) : α :=
  ONE / self.params.n0

/-- The variable `range` of the curvilinear `AmpereCurrents` (lines 56-67, "skip the axis"). -/
def AmpereCurrents_range (D : Dimension) (mblock : Meshblock α) : List (List ℕ) :=
  match D with
  | .ONE_D => CreateRangePolicy [mblock.i1_min] [mblock.i1_max]
  | .TWO_D =>
    CreateRangePolicy [mblock.i1_min, mblock.i2_min + 1] [mblock.i1_max, mblock.i2_max]
  | .THREE_D =>
    CreateRangePolicy [mblock.i1_min, mblock.i2_min + 1, mblock.i3_min]
      [mblock.i1_max, mblock.i2_max, mblock.i3_max]

/-- `PIC<D>::AmpereCurrents()`: with `MINKOWSKI_METRIC` (lines 30-42) one launch of the kernel
on `rangeActiveCells()`; without it (lines 48-111) one launch on `range` and, for `D == Dim2`,
a launch of the pole kernel on `[i1_min, i1_max)`. -/
def AmpereCurrents (MINKOWSKI_METRIC : Bool) (D : Dimension) (self : PIC α) : PIC α :=
  let coeff : α := AmpereCurrents_coeff MINKOWSKI_METRIC self
  let inv_n0 : α := AmpereCurrents_inv_n0 self
  if MINKOWSKI_METRIC then
    { self with
      meshblock := parallel_for (self.meshblock.rangeActiveCells D)
        (CurrentsAmpere_kernel coeff inv_n0) self.meshblock }
  else
    let mblock : Meshblock α := parallel_for (AmpereCurrents_range D self.meshblock)
      (CurrentsAmpere_kernel coeff inv_n0) self.meshblock
    let mblock : Meshblock α :=
      if D = Dimension.TWO_D then
        parallel_for (CreateRangePolicy [mblock.i1_min] [mblock.i1_max])
          (CurrentsAmperePoles_kernel coeff inv_n0) mblock
      else mblock
    { self with meshblock := mblock }

/-- A mesh block of 4 x 4 active cells behind two ghost layers, with every field component
equal to `e`, every current component equal to `j` and time step `dt`. -/
def sampleMeshblock (e j dt : α) : Meshblock α where
  em := fun _ _ => e
  cur := fun _ _ => j
  timestep := dt
  i1_min := 2
  i1_max := 6
  i2_min := 2
  i2_max := 6
  i3_min := 2
  i3_max := 6

end engines

/-! ## The launches of `AmpereCurrents` -/

namespace engines

/-- The two kernels launched by `AmpereCurrents`: `interior` is `CurrentsAmpere_kernel<D>`,
`poles` is `CurrentsAmperePoles_kernel<Dim2>`. -/
inductive KernelKind where
  | interior
  | poles
  deriving DecidableEq, Repr

/-- The launches of `PIC<D>::AmpereCurrents()` in program order, each index of a
`Kokkos::parallel_for` with the kernel it is handed to: with `MINKOWSKI_METRIC` the launch of
lines 37-39; without it the launch of lines 84-86 on `range` and, only for `D == Dim2`, the
launch of lines 104-107 of the pole kernel on `[i1_min, i1_max)`. -/
def AmpereCurrents_launches (MINKOWSKI_METRIC : Bool) (D : Dimension) (mblock : Meshblock α) :
    List (KernelKind × List ℕ) :=
  if MINKOWSKI_METRIC then
    (mblock.rangeActiveCells D).map (fun idx => (KernelKind.interior, idx))
  else
    (AmpereCurrents_range D mblock).map (fun idx => (KernelKind.interior, idx))
    ++ (if D = Dimension.TWO_D then
          (CreateRangePolicy [mblock.i1_min] [mblock.i1_max]).map
            (fun idx => (KernelKind.poles, idx))
        else [])

end engines

/-! ## `objects/meshblock.h`: cell sizes and index-to-coordinate maps -/

namespace objects

/-- `Meshblock::get_dx1()`: `(m_extent[1] - m_extent[0]) / m_resolution[0]`, a division of
reals. -/
def Meshblock.get_dx1 (self : Meshblock α) : α :=
  (self.m_extent.getD 1 0 - self.m_extent.getD 0 0) / (self.m_resolution.getD 0 0 : α)

/-- `Meshblock::get_dx2()`. -/
def Meshblock.get_dx2 (self : Meshblock α) : α :=
  (self.m_extent.getD 3 0 - self.m_extent.getD 2 0) / (self.m_resolution.getD 1 0 : α)

/-- `Meshblock::get_dx3()`. -/
def Meshblock.get_dx3 (self : Meshblock α) : α :=
  (self.m_extent.getD 5 0 - self.m_extent.getD 4 0) / (self.m_resolution.getD 2 0 : α)

/-- `Meshblock::get_x1min()`. -/
def Meshblock.get_x1min (self : Meshblock α) : α := self.m_extent.getD 0 0

/-- `Meshblock::get_x1max()`. -/
def Meshblock.get_x1max (self : Meshblock α) : α := self.m_extent.getD 1 0

/-- `Meshblock::get_x2min()`. -/
def Meshblock.get_x2min (self : Meshblock α) : α := self.m_extent.getD 2 0

/-- `Meshblock::get_x2max()`. -/
def Meshblock.get_x2max (self : Meshblock α) : α := self.m_extent.getD 3 0

/-- `Meshblock::get_x3min()`. -/
def Meshblock.get_x3min (self : Meshblock α) : α := self.m_extent.getD 4 0

/-- `Meshblock::get_x3max()`. -/
def Meshblock.get_x3max (self : Meshblock α) : α := self.m_extent.getD 5 0

/-- `Meshblock::get_n1()`. -/
def Meshblock.get_n1 (self : Meshblock α) : ℕ := self.m_resolution.getD 0 0

/-- `Meshblock::get_n2()`. -/
def Meshblock.get_n2 (self : Meshblock α) : ℕ := self.m_resolution.getD 1 0

/-- `Meshblock::get_n3()`. -/
def Meshblock.get_n3 (self : Meshblock α) : ℕ := self.m_resolution.getD 2 0

/-- `convert_iTOx1(mblock, i)` (meshblock.h, lines 88-92):
`m_extent[0] + static_cast<real_t>((i - N_GHOSTS) / m_resolution[0]) * (m_extent[1] - m_extent[0])`.
The quotient `(i - N_GHOSTS) / m_resolution[0]` is taken between `std::size_t` values, an integer
division, before the conversion to `real_t` (the difference is that of naturals for
`i >= N_GHOSTS`). -/
def convert_iTOx1 (N_GHOSTS : ℕ) (mblock : Meshblock α) (i : ℕ) : α :=
  mblock.m_extent.getD 0 0
    + (((i - N_GHOSTS) / mblock.m_resolution.getD 0 0 : ℕ) : α)
      * (mblock.m_extent.getD 1 0 - mblock.m_extent.getD 0 0)

/-- `convert_jTOx2(mblock, j)` (meshblock.h, lines 93-97). -/
def convert_jTOx2 (N_GHOSTS : ℕ) (mblock : Meshblock α) (j : ℕ) : α :=
  mblock.m_extent.getD 2 0
    + (((j - N_GHOSTS) / mblock.m_resolution.getD 1 0 : ℕ) : α)
      * (mblock.m_extent.getD 3 0 - mblock.m_extent.getD 2 0)

/-- `convert_kTOx3(mblock, k)` (meshblock.h, lines 98-102). -/
def convert_kTOx3 (N_GHOSTS : ℕ) (mblock : Meshblock α) (k : ℕ) : α :=
  mblock.m_extent.getD 4 0
    + (((k - N_GHOSTS) / mblock.m_resolution.getD 2 0 : ℕ) : α)
      * (mblock.m_extent.getD 5 0 - mblock.m_extent.getD 4 0)

end objects

/-! ## `ntt/main.cpp` -/

/-- How `main` ends: it returns a status, or the process is aborted by a failed `assert`. -/
inductive MainOutcome where
  | returned (status : ℤ)
  | aborted
  deriving DecidableEq, Repr

/-- What a run of `main` does: how it ends, and the `Simulation<D, PIC>` objects it constructs
and runs, in order. -/
structure MainRun where
  outcome : MainOutcome
  simulations : List Dimension
  deriving DecidableEq, Repr

/-- The end of `main` (lines 54-63) for the result of the `try` block: an exception is caught
by `catch (std::exception&)` and `main` returns `-1`; without one `main` returns `0`. -/
def main_catch : Except Exception Unit → MainOutcome
  | .ok () => MainOutcome.returned 0
  | .error .assertion_failed => MainOutcome.aborted
  | .error (.invalid_argument _) => MainOutcome.returned (-1)
  | .error (.logic_error _) => MainOutcome.returned (-1)
  | .error (.runtime_error _) => MainOutcome.returned (-1)

/-- `main` (main.cpp, lines 28-64).  Its collaborators are parameters: `parsed` is the result of
reading the command line and parsing the input file (lines 34-38), `Simulation D inputdata` the
result of `Simulation<D, PIC> sim(inputdata); sim.run();`, and `NTTError` the macro of
global.h. -/
def main (parsed : Except Exception (InputData α))
    (Simulation : Dimension → InputData α → Except Exception Unit)
    (NTTError : String → Except Exception Unit) : MainRun :=
  match parsed with
  | .error e => { outcome := main_catch (.error e), simulations := [] }
  | .ok inputdata =>
    let res : ℤ := static_cast_short inputdata.domain_resolution.length
    if res = 1 then
      { outcome := main_catch (Simulation Dimension.ONE_D inputdata),
        simulations := [Dimension.ONE_D] }
    else if res = 2 then
      { outcome := main_catch (Simulation Dimension.TWO_D inputdata),
        simulations := [Dimension.TWO_D] }
    else if res = 3 then
      { outcome := main_catch (Simulation Dimension.THREE_D inputdata),
        simulations := [Dimension.THREE_D] }
    else
      { outcome := main_catch (NTTError "wrong dimension specified"), simulations := [] }

/-! ## Concrete inputs of the constructor -/

/-- An input with one species of mass 1 and charge -1, all optional keys but the coordinate
system and the pusher of the species left out, and unit normalisation constants. -/
def sampleInput (resolution : List ℕ) (extent : List α) (boundaries : List String)
    (coord_system pusher : Option String) : InputData α where
  simulation_title := none
  simulation_runtime := 10
  algorithm_correction := 1
  particles_n_species := 1
  species := fun _ =>
    { label := none, mass := 1, charge := -1, maxnpart := 100, pusher := pusher }
  algorithm_particle_shape := none
  domain_coord_system := coord_system
  domain_resolution := resolution
  domain_extent := extent
  domain_boundaries := boundaries
  units_ppc0 := 1
  units_larmor0 := 1
  units_skindepth0 := 1
  algorithm_CFL := none

/-! ## Specification-side definitions -/

/-- Clamp of the specification: `clamp(x, lo, hi) = min(hi, max(lo, x))`. -/
def spec_clamp (x lo hi : α) : α := min hi (max lo x)

/-- The four facts claimed of a pair of vector transforms `fwd` (contravariant to orthonormal)
and `bwd` (orthonormal to contravariant) with scale factor `s`, at the value `a`. -/
def VecRoundTrip (fwd bwd : ℝ → ℝ) (s a : ℝ) : Prop :=
  fwd a = a * s ∧ bwd a = a / s ∧ bwd (fwd a) = a ∧ fwd (bwd a) = a

/-! ## Properties of `CU_to_Idi` -/

theorem static_cast_long_of_nonneg {x : α} (hx : 0 ≤ x) : static_cast_long x = ⌊x⌋ := by
  simp [static_cast_long, hx]

/-- The narrowing to `float` keeps the value in the embedding. -/
@[simp]
theorem static_cast_float_eq {γ : Type} (x : γ) : static_cast_float x = x := rfl

/-- C7 (evaluation). With two ghost layers the coordinate `x = 1/2`, which lies inside the mesh,
is split into index `2` and offset `-3/2`: the offset is negative, outside `[0, 1)`. -/
theorem CU_to_Idi_fraction_at_half :
    (-(2 : ℚ) ≤ 1 / 2) ∧ CU_to_Idi 2 (1 / 2 : ℚ) = (2, -3 / 2) ∧
      ¬ (0 ≤ (CU_to_Idi 2 (1 / 2 : ℚ)).2) := by
  norm_num [CU_to_Idi, static_cast_long]

/-- C8. For every coordinate `x ≥ -N_GHOSTS` the index returned by `CU_to_Idi(x)` is
`floor(x) + N_GHOSTS`. -/
theorem CU_to_Idi_index (N_GHOSTS : ℕ) (x : α) (hx : -(N_GHOSTS : α) ≤ x) :
    (CU_to_Idi N_GHOSTS x).1 = ⌊x⌋ + (N_GHOSTS : ℤ) := by
  have h0 : (0 : α) ≤ x + (N_GHOSTS : α) := by linarith
  simp only [CU_to_Idi]
  rw [static_cast_long_of_nonneg h0]
  exact Int.floor_add_nat x N_GHOSTS

/-- The index of `x = 7/2` with two ghost layers. -/
theorem CU_to_Idi_index_witness :
    (-((2 : ℕ) : ℚ) ≤ 7 / 2) ∧ (CU_to_Idi 2 (7 / 2 : ℚ)).1 = ⌊(7 / 2 : ℚ)⌋ + ((2 : ℕ) : ℤ) :=
  ⟨by norm_num, CU_to_Idi_index 2 (7 / 2 : ℚ) (by norm_num)⟩

/-! ## Properties of `getDepositInterval` and of the deposit kernel -/

theorem sqrt_sixteen : Real.sqrt 16 = 4 := by
  rw [show (16 : ℝ) = 4 ^ 2 by norm_num]
  exact Real.sqrt_sq (by norm_num)

theorem sqrt_twentyfive : Real.sqrt 25 = 5 := by
  rw [show (25 : ℝ) = 5 ^ 2 by norm_num]
  exact Real.sqrt_sq (by norm_num)

/-- Evaluation of the one-dimensional `getDepositInterval` for a particle stored at cell 5 with
offset 1/2 and momentum (3/4, 0, 0), time step 1, two ghost layers, on the flat mesh block. -/
theorem sample_ONE_D_eval :
    (getDepositInterval 2 Real.sqrt .ONE_D (sampleDeposit 1 5 (1 / 2) (3 / 4) 1) 0).Ip_f 0 = 5 ∧
    (getDepositInterval 2 Real.sqrt .ONE_D (sampleDeposit 1 5 (1 / 2) (3 / 4) 1) 0).dIp_f 0
      = 1 / 2 ∧
    (getDepositInterval 2 Real.sqrt .ONE_D (sampleDeposit 1 5 (1 / 2) (3 / 4) 1) 0).xp_f 0
      = 11 / 2 ∧
    (getDepositInterval 2 Real.sqrt .ONE_D (sampleDeposit 1 5 (1 / 2) (3 / 4) 1) 0).xp_i 0
      = 49 / 10 ∧
    (getDepositInterval 2 Real.sqrt .ONE_D (sampleDeposit 1 5 (1 / 2) (3 / 4) 1) 0).Ip_i 0 = 7 ∧
    (getDepositInterval 2 Real.sqrt .ONE_D (sampleDeposit 1 5 (1 / 2) (3 / 4) 1) 0).dIp_i 0
      = -3 / 2 ∧
    (getDepositInterval 2 Real.sqrt .ONE_D (sampleDeposit 1 5 (1 / 2) (3 / 4) 1) 0).xp_r 0 = 6 := by
  simp only [getDepositInterval, getDepositInterval_ONE_D, sampleDeposit, flatMeshblock,
    oneParticle, CU_to_Idi, static_cast_long, SQR, ONE, HALF]
  norm_num [sqrt_sixteen, sqrt_twentyfive]

/-- The kernel returns the functor state it was given. -/
theorem Deposit.call_eq_self (N_GHOSTS : ℕ) (sqrt : α → α) (D : Dimension)
    (self : Deposit α D.rank) (p : ℕ) : Deposit.call N_GHOSTS sqrt D self p = self := rfl

/-- The loop over all particles returns the functor state it was given. -/
theorem Deposit.depositCurrents_eq_self (N_GHOSTS : ℕ) (sqrt : α → α) (D : Dimension)
    (self : Deposit α D.rank) : Deposit.depositCurrents N_GHOSTS sqrt D self = self := by
  unfold Deposit.depositCurrents
  induction List.range self.m_particles.npart with
  | nil => rfl
  | cons p ps ih => simp [List.foldl, Deposit.call_eq_self]

/-- C1 (evaluation at the failing input). One dimension, two ghost layers, flat mesh block with
zero current, time step 1, one particle stored at cell 5 with offset 1/2 and momentum
(3/4, 0, 0): the particle moved from `xp_i = 49/10` to `xp_f = 11/2`, across the cell face at
`x = 5`, and after the kernel, and after the whole loop `depositCurrents`, every component of `J`
in every cell is still zero: the current added to the mesh, and with it its discrete divergence,
is identically zero. -/
theorem deposit_sample_adds_no_current :
    (getDepositInterval 2 Real.sqrt .ONE_D (sampleDeposit 1 5 (1 / 2) (3 / 4) 1) 0).xp_i 0
      = 49 / 10 ∧
    (getDepositInterval 2 Real.sqrt .ONE_D (sampleDeposit 1 5 (1 / 2) (3 / 4) 1) 0).xp_f 0
      = 11 / 2 ∧
    (∀ (idx : Fin 1 → ℕ) (c : Fin 3),
      (Deposit.call 2 Real.sqrt .ONE_D (sampleDeposit 1 5 (1 / 2) (3 / 4) 1) 0).m_mblock.cur idx c
        = 0) ∧
    (∀ (idx : Fin 1 → ℕ) (c : Fin 3),
      (Deposit.depositCurrents 2 Real.sqrt .ONE_D
        (sampleDeposit 1 5 (1 / 2) (3 / 4) 1)).m_mblock.cur idx c = 0) := by
  refine ⟨sample_ONE_D_eval.2.2.2.1, sample_ONE_D_eval.2.2.1, ?_, ?_⟩
  · intro idx c
    rw [Deposit.call_eq_self]
    rfl
  · intro idx c
    rw [Deposit.depositCurrents_eq_self]
    rfl

/-- C2 (what the kernel does). In every dimension, for every functor state and every particle
index `p`, the current array after `operator()(p)` is the current array before it: no
contribution is added for either trajectory segment, whatever the particle's displacement. -/
theorem deposit_call_leaves_current (N_GHOSTS : ℕ) (sqrt : α → α) (D : Dimension)
    (self : Deposit α D.rank) (p : ℕ) :
    (Deposit.call N_GHOSTS sqrt D self p).m_mblock.cur = self.m_mblock.cur := by
  rw [Deposit.call_eq_self]

/-- C3 (counterexample). For the particle of `sample_ONE_D_eval` the relay coordinate returned is
`6`, whereas `clamp(xmid, min(Ip_i, Ip_f), max(Ip_i, Ip_f) + 1) = clamp(26/5, 5, 8) = 26/5`. -/
theorem relay_point_clamp_counterexample :
    ¬ ((getDepositInterval 2 Real.sqrt .ONE_D (sampleDeposit 1 5 (1 / 2) (3 / 4) 1) 0).xp_r 0
      = spec_clamp
          (((getDepositInterval 2 Real.sqrt .ONE_D (sampleDeposit 1 5 (1 / 2) (3 / 4) 1) 0).xp_i 0
            + (getDepositInterval 2 Real.sqrt .ONE_D (sampleDeposit 1 5 (1 / 2) (3 / 4) 1) 0).xp_f 0)
            / 2)
          ((min ((getDepositInterval 2 Real.sqrt .ONE_D (sampleDeposit 1 5 (1 / 2) (3 / 4) 1) 0).Ip_i 0)
            ((getDepositInterval 2 Real.sqrt .ONE_D (sampleDeposit 1 5 (1 / 2) (3 / 4) 1) 0).Ip_f 0)
            : ℤ) : ℝ)
          ((max ((getDepositInterval 2 Real.sqrt .ONE_D (sampleDeposit 1 5 (1 / 2) (3 / 4) 1) 0).Ip_i 0)
            ((getDepositInterval 2 Real.sqrt .ONE_D (sampleDeposit 1 5 (1 / 2) (3 / 4) 1) 0).Ip_f 0)
            : ℤ) + 1 : ℝ)) := by
  obtain ⟨h1, -, h3, h4, h5, -, h7⟩ := sample_ONE_D_eval
  rw [h1, h3, h4, h5, h7]
  norm_num [spec_clamp]

/-- The relay coordinate returned by `getDepositInterval`, in every dimension and on every
axis, written in terms of the returned indices and positions. -/
theorem getDepositInterval_xp_r (N_GHOSTS : ℕ) (sqrt : α → α) (D : Dimension)
    (self : Deposit α D.rank) (p : ℕ) (d : Fin D.rank) :
    (getDepositInterval N_GHOSTS sqrt D self p).xp_r d
      = min (((min ((getDepositInterval N_GHOSTS sqrt D self p).Ip_i d)
                ((getDepositInterval N_GHOSTS sqrt D self p).Ip_f d) + 1 : ℤ) : α))
          (max (((max ((getDepositInterval N_GHOSTS sqrt D self p).Ip_i d)
                ((getDepositInterval N_GHOSTS sqrt D self p).Ip_f d) : ℤ) : α))
            (((getDepositInterval N_GHOSTS sqrt D self p).xp_i d
              + (getDepositInterval N_GHOSTS sqrt D self p).xp_f d) / 2)) := by
  cases D with
  | ONE_D =>
    have hd : d = (0 : Fin 1) := Subsingleton.elim _ _
    subst hd
    simp only [getDepositInterval, getDepositInterval_ONE_D, HALF, one_div_mul_eq_div]
    rfl
  | TWO_D =>
    change Fin 2 at d
    fin_cases d <;>
    · simp only [getDepositInterval, getDepositInterval_TWO_D, HALF, one_div_mul_eq_div]
      rfl
  | THREE_D =>
    change Fin 3 at d
    fin_cases d <;>
    · simp only [getDepositInterval, getDepositInterval_THREE_D, HALF, one_div_mul_eq_div]
      rfl

/-- C3 (as amended). In one, two and three dimensions, for every particle and every axis `d`, the
relay coordinate is `min(min(Ip_i, Ip_f) + 1, max(max(Ip_i, Ip_f), xmid))` with
`xmid = (xp_i + xp_f) / 2`: the midpoint is bounded below by the larger of the two cell indices
and above by the smaller one plus one. -/
theorem relay_point_formula (N_GHOSTS : ℕ) (sqrt : α → α) (D : Dimension)
    (self : Deposit α D.rank) (p : ℕ) (d : Fin D.rank) :
    (getDepositInterval N_GHOSTS sqrt D self p).xp_r d
      = min (((min ((getDepositInterval N_GHOSTS sqrt D self p).Ip_i d)
                ((getDepositInterval N_GHOSTS sqrt D self p).Ip_f d) + 1 : ℤ) : α))
          (max (((max ((getDepositInterval N_GHOSTS sqrt D self p).Ip_i d)
                ((getDepositInterval N_GHOSTS sqrt D self p).Ip_f d) : ℤ) : α))
            (((getDepositInterval N_GHOSTS sqrt D self p).xp_i d
              + (getDepositInterval N_GHOSTS sqrt D self p).xp_f d) / 2)) :=
  getDepositInterval_xp_r N_GHOSTS sqrt D self p d

/-- C4 (evaluation at the failing input). For the particle of `sample_ONE_D_eval` the pre-step
position is `xp_i = 49/10`, whose index and offset are `CU_to_Idi(49/10) = (6, -11/10)`, but the
initial index and offset returned are `(7, -3/2) = CU_to_Idi(xp_f)`, those of the final position
`xp_f = 11/2`; so `Ip_i + dIp_i = 11/2` differs from `xp_i`. -/
theorem initial_cell_sample :
    (getDepositInterval 2 Real.sqrt .ONE_D (sampleDeposit 1 5 (1 / 2) (3 / 4) 1) 0).xp_i 0
      = 49 / 10 ∧
    CU_to_Idi 2 (49 / 10 : ℝ) = (6, -11 / 10) ∧
    ((getDepositInterval 2 Real.sqrt .ONE_D (sampleDeposit 1 5 (1 / 2) (3 / 4) 1) 0).Ip_i 0,
      (getDepositInterval 2 Real.sqrt .ONE_D (sampleDeposit 1 5 (1 / 2) (3 / 4) 1) 0).dIp_i 0)
      = (7, -3 / 2) ∧
    CU_to_Idi 2 (11 / 2 : ℝ) = (7, -3 / 2) ∧
    (((getDepositInterval 2 Real.sqrt .ONE_D (sampleDeposit 1 5 (1 / 2) (3 / 4) 1) 0).Ip_i 0 : ℤ)
        : ℝ)
      + (getDepositInterval 2 Real.sqrt .ONE_D (sampleDeposit 1 5 (1 / 2) (3 / 4) 1) 0).dIp_i 0
      ≠ (getDepositInterval 2 Real.sqrt .ONE_D (sampleDeposit 1 5 (1 / 2) (3 / 4) 1) 0).xp_i 0 := by
  obtain ⟨-, -, -, h4, h5, h6, -⟩ := sample_ONE_D_eval
  rw [h4, h5, h6]
  refine ⟨rfl, ?_, rfl, ?_, ?_⟩ <;> norm_num [CU_to_Idi, static_cast_long]

/-- The relay expression lies in both closed cells when the two indices differ by at most one. -/
theorem relay_mem_cells {γ : Type} [LinearOrderedField γ] (Ii If : ℤ) (xmid : γ)
    (h : |Ii - If| ≤ 1) :
    (Ii : γ) ≤ min (((min Ii If + 1 : ℤ) : γ)) (max (((max Ii If : ℤ) : γ)) xmid) ∧
    min (((min Ii If + 1 : ℤ) : γ)) (max (((max Ii If : ℤ) : γ)) xmid) ≤ (Ii : γ) + 1 ∧
    (If : γ) ≤ min (((min Ii If + 1 : ℤ) : γ)) (max (((max Ii If : ℤ) : γ)) xmid) ∧
    min (((min Ii If + 1 : ℤ) : γ)) (max (((max Ii If : ℤ) : γ)) xmid) ≤ (If : γ) + 1 := by
  obtain ⟨h1, h2⟩ := abs_le.mp h
  have hM : max Ii If ≤ min Ii If + 1 := by
    rcases le_total Ii If with hle | hle
    · rw [max_eq_right hle, min_eq_left hle]; omega
    · rw [max_eq_left hle, min_eq_right hle]; omega
  have hMc : ((max Ii If : ℤ) : γ) ≤ ((min Ii If + 1 : ℤ) : γ) := by exact_mod_cast hM
  have hlo : ((max Ii If : ℤ) : γ) ≤
      min (((min Ii If + 1 : ℤ) : γ)) (max (((max Ii If : ℤ) : γ)) xmid) :=
    le_min hMc (le_max_left _ _)
  have hhi : min (((min Ii If + 1 : ℤ) : γ)) (max (((max Ii If : ℤ) : γ)) xmid) ≤
      ((min Ii If + 1 : ℤ) : γ) := min_le_left _ _
  have a1 : (Ii : γ) ≤ ((max Ii If : ℤ) : γ) := by exact_mod_cast le_max_left Ii If
  have a2 : (If : γ) ≤ ((max Ii If : ℤ) : γ) := by exact_mod_cast le_max_right Ii If
  have b1 : ((min Ii If + 1 : ℤ) : γ) ≤ (Ii : γ) + 1 := by
    have : min Ii If + 1 ≤ Ii + 1 := by have := min_le_left Ii If; omega
    exact_mod_cast this
  have b2 : ((min Ii If + 1 : ℤ) : γ) ≤ (If : γ) + 1 := by
    have : min Ii If + 1 ≤ If + 1 := by have := min_le_right Ii If; omega
    exact_mod_cast this
  exact ⟨a1.trans hlo, hhi.trans b1, a2.trans hlo, hhi.trans b2⟩

/-- The relay coordinate and the returned indices: on every axis on which the initial and final
indices returned by `getDepositInterval` are equal or adjacent, the relay coordinate lies between
`Ip_i` and `Ip_i + 1` and between `Ip_f` and `Ip_f + 1`. -/
theorem relay_in_both_cells (N_GHOSTS : ℕ) (sqrt : α → α) (D : Dimension)
    (self : Deposit α D.rank) (p : ℕ) (d : Fin D.rank)
    (h : |(getDepositInterval N_GHOSTS sqrt D self p).Ip_i d
          - (getDepositInterval N_GHOSTS sqrt D self p).Ip_f d| ≤ 1) :
    (((getDepositInterval N_GHOSTS sqrt D self p).Ip_i d : ℤ) : α)
        ≤ (getDepositInterval N_GHOSTS sqrt D self p).xp_r d ∧
    (getDepositInterval N_GHOSTS sqrt D self p).xp_r d
        ≤ (((getDepositInterval N_GHOSTS sqrt D self p).Ip_i d : ℤ) : α) + 1 ∧
    (((getDepositInterval N_GHOSTS sqrt D self p).Ip_f d : ℤ) : α)
        ≤ (getDepositInterval N_GHOSTS sqrt D self p).xp_r d ∧
    (getDepositInterval N_GHOSTS sqrt D self p).xp_r d
        ≤ (((getDepositInterval N_GHOSTS sqrt D self p).Ip_f d : ℤ) : α) + 1 := by
  rw [getDepositInterval_xp_r]
  exact relay_mem_cells _ _ _ h

/-- Evaluation of the one-dimensional `getDepositInterval` with one ghost layer for the particle
stored at cell 5 with offset 1/2 and momentum (3/4, 0, 0), time step 1. -/
theorem sample_adjacent_eval :
    (getDepositInterval 1 Real.sqrt .ONE_D (sampleDeposit 1 5 (1 / 2) (3 / 4) 1) 0).Ip_f 0 = 5 ∧
    (getDepositInterval 1 Real.sqrt .ONE_D (sampleDeposit 1 5 (1 / 2) (3 / 4) 1) 0).Ip_i 0 = 6 := by
  simp only [getDepositInterval, getDepositInterval_ONE_D, sampleDeposit, flatMeshblock,
    oneParticle, CU_to_Idi, static_cast_long, SQR, ONE, HALF]
  norm_num

/-- The relay coordinate of a particle whose returned indices are adjacent (6 and 5). -/
theorem relay_in_both_cells_witness :
    |(getDepositInterval 1 Real.sqrt .ONE_D (sampleDeposit 1 5 (1 / 2) (3 / 4) 1) 0).Ip_i 0
      - (getDepositInterval 1 Real.sqrt .ONE_D (sampleDeposit 1 5 (1 / 2) (3 / 4) 1) 0).Ip_f 0| ≤ 1 ∧
    ((((getDepositInterval 1 Real.sqrt .ONE_D (sampleDeposit 1 5 (1 / 2) (3 / 4) 1) 0).Ip_i 0 : ℤ)
        : ℝ)
        ≤ (getDepositInterval 1 Real.sqrt .ONE_D (sampleDeposit 1 5 (1 / 2) (3 / 4) 1) 0).xp_r 0 ∧
    (getDepositInterval 1 Real.sqrt .ONE_D (sampleDeposit 1 5 (1 / 2) (3 / 4) 1) 0).xp_r 0
        ≤ (((getDepositInterval 1 Real.sqrt .ONE_D (sampleDeposit 1 5 (1 / 2) (3 / 4) 1) 0).Ip_i 0
            : ℤ) : ℝ) + 1 ∧
    (((getDepositInterval 1 Real.sqrt .ONE_D (sampleDeposit 1 5 (1 / 2) (3 / 4) 1) 0).Ip_f 0 : ℤ)
        : ℝ)
        ≤ (getDepositInterval 1 Real.sqrt .ONE_D (sampleDeposit 1 5 (1 / 2) (3 / 4) 1) 0).xp_r 0 ∧
    (getDepositInterval 1 Real.sqrt .ONE_D (sampleDeposit 1 5 (1 / 2) (3 / 4) 1) 0).xp_r 0
        ≤ (((getDepositInterval 1 Real.sqrt .ONE_D (sampleDeposit 1 5 (1 / 2) (3 / 4) 1) 0).Ip_f 0
            : ℤ) : ℝ) + 1) :=
  have h : |(getDepositInterval 1 Real.sqrt .ONE_D (sampleDeposit 1 5 (1 / 2) (3 / 4) 1) 0).Ip_i 0
      - (getDepositInterval 1 Real.sqrt .ONE_D (sampleDeposit 1 5 (1 / 2) (3 / 4) 1) 0).Ip_f 0|
      ≤ 1 := by
    rw [sample_adjacent_eval.1, sample_adjacent_eval.2]; decide
  ⟨h, relay_in_both_cells 1 Real.sqrt .ONE_D (sampleDeposit 1 5 (1 / 2) (3 / 4) 1) 0 0 h⟩

/-- Positions returned by the one-dimensional `getDepositInterval` with one ghost layer for the
particle stored at cell 5 with offset 1/2 and momentum (3/4, 0, 0), time step 1. -/
theorem sample_adjacent_positions :
    (getDepositInterval 1 Real.sqrt .ONE_D (sampleDeposit 1 5 (1 / 2) (3 / 4) 1) 0).xp_i 0
      = 49 / 10 ∧
    (getDepositInterval 1 Real.sqrt .ONE_D (sampleDeposit 1 5 (1 / 2) (3 / 4) 1) 0).xp_r 0 = 6 ∧
    (getDepositInterval 1 Real.sqrt .ONE_D (sampleDeposit 1 5 (1 / 2) (3 / 4) 1) 0).xp_f 0
      = 11 / 2 := by
  simp only [getDepositInterval, getDepositInterval_ONE_D, sampleDeposit, flatMeshblock,
    oneParticle, CU_to_Idi, static_cast_long, SQR, ONE, HALF]
  norm_num [sqrt_sixteen, sqrt_twentyfive]

/-- C5 (evaluation at the failing input). One dimension, one ghost layer, time step 1, particle
stored at cell 5 with offset 1/2 and momentum (3/4, 0, 0): the returned indices `Ip_i = 6` and
`Ip_f = 5` are adjacent, the trajectory runs from `xp_i = 49/10` over the relay point `xp_r = 6`
to `xp_f = 11/2`; the initial position lies outside the returned initial cell `[6, 7]`, and the
cell face `x = 5` lies strictly inside the segment from the initial position to the relay point,
so that segment does not stay within one mesh cell. -/
theorem segment_leaves_cell_sample :
    |(getDepositInterval 1 Real.sqrt .ONE_D (sampleDeposit 1 5 (1 / 2) (3 / 4) 1) 0).Ip_i 0
      - (getDepositInterval 1 Real.sqrt .ONE_D (sampleDeposit 1 5 (1 / 2) (3 / 4) 1) 0).Ip_f 0| ≤ 1 ∧
    (getDepositInterval 1 Real.sqrt .ONE_D (sampleDeposit 1 5 (1 / 2) (3 / 4) 1) 0).Ip_i 0 = 6 ∧
    (getDepositInterval 1 Real.sqrt .ONE_D (sampleDeposit 1 5 (1 / 2) (3 / 4) 1) 0).xp_i 0
      = 49 / 10 ∧
    (getDepositInterval 1 Real.sqrt .ONE_D (sampleDeposit 1 5 (1 / 2) (3 / 4) 1) 0).xp_r 0 = 6 ∧
    (getDepositInterval 1 Real.sqrt .ONE_D (sampleDeposit 1 5 (1 / 2) (3 / 4) 1) 0).xp_f 0
      = 11 / 2 ∧
    ¬ ((((getDepositInterval 1 Real.sqrt .ONE_D (sampleDeposit 1 5 (1 / 2) (3 / 4) 1) 0).Ip_i 0
          : ℤ) : ℝ)
        ≤ (getDepositInterval 1 Real.sqrt .ONE_D (sampleDeposit 1 5 (1 / 2) (3 / 4) 1) 0).xp_i 0) ∧
    (getDepositInterval 1 Real.sqrt .ONE_D (sampleDeposit 1 5 (1 / 2) (3 / 4) 1) 0).xp_i 0
      < (((getDepositInterval 1 Real.sqrt .ONE_D (sampleDeposit 1 5 (1 / 2) (3 / 4) 1) 0).Ip_f 0
          : ℤ) : ℝ) ∧
    (((getDepositInterval 1 Real.sqrt .ONE_D (sampleDeposit 1 5 (1 / 2) (3 / 4) 1) 0).Ip_f 0
          : ℤ) : ℝ)
      < (getDepositInterval 1 Real.sqrt .ONE_D (sampleDeposit 1 5 (1 / 2) (3 / 4) 1) 0).xp_r 0 := by
  obtain ⟨hf, hi⟩ := sample_adjacent_eval
  obtain ⟨hxi, hxr, hxf⟩ := sample_adjacent_positions
  rw [hf, hi, hxi, hxr, hxf]
  refine ⟨by decide, rfl, rfl, rfl, rfl, ?_, ?_, ?_⟩ <;> norm_num

/-! ## Properties of the vector transforms -/

theorem vecRoundTrip_of_pos (m a : ℝ) (hm : 0 < m) :
    VecRoundTrip (fun b => Real.sqrt m * b) (fun b => b / Real.sqrt m) (Real.sqrt m) a := by
  have hs : Real.sqrt m ≠ 0 := (Real.sqrt_pos.mpr hm).ne'
  refine ⟨mul_comm _ _, rfl, ?_, ?_⟩
  · show Real.sqrt m * a / Real.sqrt m = a
    field_simp
  · show Real.sqrt m * (a / Real.sqrt m) = a
    field_simp

/-- C9. For each axis `k` and each number of position arguments, at every position where the
metric component `h_kk` is strictly positive and for every value `a`:
`vec_CNT_to_HAT_xk(a, x) = a * sqrt(h_kk(x))`, `vec_HAT_to_CNT_xk(a, x) = a / sqrt(h_kk(x))`, and
the two transforms undo each other in both orders. -/
theorem vec_transform_roundtrip (g : CoordinateGrid ℝ) (a x1 x2 x3 : ℝ) :
    (0 < g.h11_1 x1 →
      VecRoundTrip (fun b => vec_CNT_to_HAT_x1_1 Real.sqrt g b x1)
        (fun b => vec_HAT_to_CNT_x1_1 Real.sqrt g b x1) (Real.sqrt (g.h11_1 x1)) a) ∧
    (0 < g.h11_2 x1 x2 →
      VecRoundTrip (fun b => vec_CNT_to_HAT_x1_2 Real.sqrt g b x1 x2)
        (fun b => vec_HAT_to_CNT_x1_2 Real.sqrt g b x1 x2) (Real.sqrt (g.h11_2 x1 x2)) a) ∧
    (0 < g.h11_3 x1 x2 x3 →
      VecRoundTrip (fun b => vec_CNT_to_HAT_x1_3 Real.sqrt g b x1 x2 x3)
        (fun b => vec_HAT_to_CNT_x1_3 Real.sqrt g b x1 x2 x3) (Real.sqrt (g.h11_3 x1 x2 x3)) a) ∧
    (0 < g.h22_1 x1 →
      VecRoundTrip (fun b => vec_CNT_to_HAT_x2_1 Real.sqrt g b x1)
        (fun b => vec_HAT_to_CNT_x2_1 Real.sqrt g b x1) (Real.sqrt (g.h22_1 x1)) a) ∧
    (0 < g.h22_2 x1 x2 →
      VecRoundTrip (fun b => vec_CNT_to_HAT_x2_2 Real.sqrt g b x1 x2)
        (fun b => vec_HAT_to_CNT_x2_2 Real.sqrt g b x1 x2) (Real.sqrt (g.h22_2 x1 x2)) a) ∧
    (0 < g.h22_3 x1 x2 x3 →
      VecRoundTrip (fun b => vec_CNT_to_HAT_x2_3 Real.sqrt g b x1 x2 x3)
        (fun b => vec_HAT_to_CNT_x2_3 Real.sqrt g b x1 x2 x3) (Real.sqrt (g.h22_3 x1 x2 x3)) a) ∧
    (0 < g.h33_1 x1 →
      VecRoundTrip (fun b => vec_CNT_to_HAT_x3_1 Real.sqrt g b x1)
        (fun b => vec_HAT_to_CNT_x3_1 Real.sqrt g b x1) (Real.sqrt (g.h33_1 x1)) a) ∧
    (0 < g.h33_2 x1 x2 →
      VecRoundTrip (fun b => vec_CNT_to_HAT_x3_2 Real.sqrt g b x1 x2)
        (fun b => vec_HAT_to_CNT_x3_2 Real.sqrt g b x1 x2) (Real.sqrt (g.h33_2 x1 x2)) a) ∧
    (0 < g.h33_3 x1 x2 x3 →
      VecRoundTrip (fun b => vec_CNT_to_HAT_x3_3 Real.sqrt g b x1 x2 x3)
        (fun b => vec_HAT_to_CNT_x3_3 Real.sqrt g b x1 x2 x3) (Real.sqrt (g.h33_3 x1 x2 x3)) a) := by
  refine ⟨?_, ?_, ?_, ?_, ?_, ?_, ?_, ?_, ?_⟩ <;> intro hm <;> exact vecRoundTrip_of_pos _ a hm

/-- The vector transforms on a grid with constant metric component 4, at the value 3. -/
theorem vec_transform_roundtrip_witness :
    VecRoundTrip (fun b => vec_CNT_to_HAT_x1_1 Real.sqrt (CoordinateGrid.constMetric [8] [0, 8] 4) b 1)
      (fun b => vec_HAT_to_CNT_x1_1 Real.sqrt (CoordinateGrid.constMetric [8] [0, 8] 4) b 1)
      (Real.sqrt ((CoordinateGrid.constMetric [8] [0, 8] 4).h11_1 1)) 3 ∧
    VecRoundTrip (fun b => vec_CNT_to_HAT_x1_2 Real.sqrt (CoordinateGrid.constMetric [8] [0, 8] 4) b 1 2)
      (fun b => vec_HAT_to_CNT_x1_2 Real.sqrt (CoordinateGrid.constMetric [8] [0, 8] 4) b 1 2)
      (Real.sqrt ((CoordinateGrid.constMetric [8] [0, 8] 4).h11_2 1 2)) 3 ∧
    VecRoundTrip (fun b => vec_CNT_to_HAT_x1_3 Real.sqrt (CoordinateGrid.constMetric [8] [0, 8] 4) b 1 2 3)
      (fun b => vec_HAT_to_CNT_x1_3 Real.sqrt (CoordinateGrid.constMetric [8] [0, 8] 4) b 1 2 3)
      (Real.sqrt ((CoordinateGrid.constMetric [8] [0, 8] 4).h11_3 1 2 3)) 3 ∧
    VecRoundTrip (fun b => vec_CNT_to_HAT_x2_1 Real.sqrt (CoordinateGrid.constMetric [8] [0, 8] 4) b 1)
      (fun b => vec_HAT_to_CNT_x2_1 Real.sqrt (CoordinateGrid.constMetric [8] [0, 8] 4) b 1)
      (Real.sqrt ((CoordinateGrid.constMetric [8] [0, 8] 4).h22_1 1)) 3 ∧
    VecRoundTrip (fun b => vec_CNT_to_HAT_x2_2 Real.sqrt (CoordinateGrid.constMetric [8] [0, 8] 4) b 1 2)
      (fun b => vec_HAT_to_CNT_x2_2 Real.sqrt (CoordinateGrid.constMetric [8] [0, 8] 4) b 1 2)
      (Real.sqrt ((CoordinateGrid.constMetric [8] [0, 8] 4).h22_2 1 2)) 3 ∧
    VecRoundTrip (fun b => vec_CNT_to_HAT_x2_3 Real.sqrt (CoordinateGrid.constMetric [8] [0, 8] 4) b 1 2 3)
      (fun b => vec_HAT_to_CNT_x2_3 Real.sqrt (CoordinateGrid.constMetric [8] [0, 8] 4) b 1 2 3)
      (Real.sqrt ((CoordinateGrid.constMetric [8] [0, 8] 4).h22_3 1 2 3)) 3 ∧
    VecRoundTrip (fun b => vec_CNT_to_HAT_x3_1 Real.sqrt (CoordinateGrid.constMetric [8] [0, 8] 4) b 1)
      (fun b => vec_HAT_to_CNT_x3_1 Real.sqrt (CoordinateGrid.constMetric [8] [0, 8] 4) b 1)
      (Real.sqrt ((CoordinateGrid.constMetric [8] [0, 8] 4).h33_1 1)) 3 ∧
    VecRoundTrip (fun b => vec_CNT_to_HAT_x3_2 Real.sqrt (CoordinateGrid.constMetric [8] [0, 8] 4) b 1 2)
      (fun b => vec_HAT_to_CNT_x3_2 Real.sqrt (CoordinateGrid.constMetric [8] [0, 8] 4) b 1 2)
      (Real.sqrt ((CoordinateGrid.constMetric [8] [0, 8] 4).h33_2 1 2)) 3 ∧
    VecRoundTrip (fun b => vec_CNT_to_HAT_x3_3 Real.sqrt (CoordinateGrid.constMetric [8] [0, 8] 4) b 1 2 3)
      (fun b => vec_HAT_to_CNT_x3_3 Real.sqrt (CoordinateGrid.constMetric [8] [0, 8] 4) b 1 2 3)
      (Real.sqrt ((CoordinateGrid.constMetric [8] [0, 8] 4).h33_3 1 2 3)) 3 :=
  have hpos : (0 : ℝ) < 4 := by norm_num
  have t := vec_transform_roundtrip (CoordinateGrid.constMetric [8] [0, 8] 4) 3 1 2 3
  ⟨t.1 hpos, t.2.1 hpos, t.2.2.1 hpos, t.2.2.2.1 hpos, t.2.2.2.2.1 hpos, t.2.2.2.2.2.1 hpos,
    t.2.2.2.2.2.2.1 hpos, t.2.2.2.2.2.2.2.1 hpos, t.2.2.2.2.2.2.2.2 hpos⟩

/-! ## Ghost padding of the field store -/

/-- Ghost padding away from the wrap-around: for every ghost width and every resolution vector
with `res[d] + 2 * N_GHOSTS < 2^32` on the axes of the mesh, and every `Fields<D, S>` constructor
of fields.cpp: the views allocated are `EM`, `J`, `J0` (and `AUX`, `EM0`, `APHI` in the GRPIC
build), each has one extent per axis, equal to `res[d] + 2 * N_GHOSTS`; and on every axis `d` of
the mesh the active range `[get_min, get_max)` of the mesh block of resolution `res` starts at
`N_GHOSTS`, has `res[d]` cells and ends `N_GHOSTS` cells before the extent of the storage. -/
theorem fields_ghost_padding (N_GHOSTS : ℕ) (S : framework.SimType) (D : Dimension)
    (res : List ℕ) {γ : Type} (extent : List γ) (F : framework.Fields)
    (hF : framework.Fields.ctor N_GHOSTS S D res = some F)
    (hw : ∀ d, d < D.rank → res.getD d 0 + 2 * N_GHOSTS < 4294967296) :
    (F.views.map Prod.fst
        = if S = framework.SimType.TypePIC then ["EM", "J", "J0"]
          else ["EM", "J", "J0", "AUX", "EM0", "APHI"]) ∧
    (∀ a ∈ F.views,
        a.2 = (List.range D.rank).map (fun d => res.getD d 0 + 2 * N_GHOSTS)) ∧
    (0 < D.rank →
      objects.Meshblock.get_imin N_GHOSTS
          ({ m_extent := extent, m_resolution := res } : objects.Meshblock γ) = N_GHOSTS ∧
      objects.Meshblock.get_imax N_GHOSTS
          ({ m_extent := extent, m_resolution := res } : objects.Meshblock γ)
        - objects.Meshblock.get_imin N_GHOSTS
          ({ m_extent := extent, m_resolution := res } : objects.Meshblock γ) = res.getD 0 0 ∧
      ∀ a ∈ F.views,
        objects.Meshblock.get_imax N_GHOSTS
          ({ m_extent := extent, m_resolution := res } : objects.Meshblock γ) + N_GHOSTS
          = a.2.getD 0 0) ∧
    (1 < D.rank →
      objects.Meshblock.get_jmin N_GHOSTS
          ({ m_extent := extent, m_resolution := res } : objects.Meshblock γ) = N_GHOSTS ∧
      objects.Meshblock.get_jmax N_GHOSTS
          ({ m_extent := extent, m_resolution := res } : objects.Meshblock γ)
        - objects.Meshblock.get_jmin N_GHOSTS
          ({ m_extent := extent, m_resolution := res } : objects.Meshblock γ) = res.getD 1 0 ∧
      ∀ a ∈ F.views,
        objects.Meshblock.get_jmax N_GHOSTS
          ({ m_extent := extent, m_resolution := res } : objects.Meshblock γ) + N_GHOSTS
          = a.2.getD 1 0) ∧
    (2 < D.rank →
      objects.Meshblock.get_kmin N_GHOSTS
          ({ m_extent := extent, m_resolution := res } : objects.Meshblock γ) = N_GHOSTS ∧
      objects.Meshblock.get_kmax N_GHOSTS
          ({ m_extent := extent, m_resolution := res } : objects.Meshblock γ)
        - objects.Meshblock.get_kmin N_GHOSTS
          ({ m_extent := extent, m_resolution := res } : objects.Meshblock γ) = res.getD 2 0 ∧
      ∀ a ∈ F.views,
        objects.Meshblock.get_kmax N_GHOSTS
          ({ m_extent := extent, m_resolution := res } : objects.Meshblock γ) + N_GHOSTS
          = a.2.getD 2 0) := by
  have e0 : 0 < D.rank → framework.uint_extent N_GHOSTS res 0 = res.getD 0 0 + 2 * N_GHOSTS :=
    fun h => Nat.mod_eq_of_lt (hw 0 h)
  have e1 : 1 < D.rank → framework.uint_extent N_GHOSTS res 1 = res.getD 1 0 + 2 * N_GHOSTS :=
    fun h => Nat.mod_eq_of_lt (hw 1 h)
  have e2 : 2 < D.rank → framework.uint_extent N_GHOSTS res 2 = res.getD 2 0 + 2 * N_GHOSTS :=
    fun h => Nat.mod_eq_of_lt (hw 2 h)
  unfold framework.Fields.ctor at hF
  split_ifs at hF
  cases S <;> cases D <;>
    simp only [Option.some.injEq, reduceCtorEq] at hF <;>
    subst hF <;>
    simp only [Dimension.rank, Nat.lt_add_one, Nat.one_lt_ofNat, Nat.ofNat_pos, forall_const,
      Nat.lt_irrefl, Nat.not_lt_zero, IsEmpty.forall_iff] at e0 e1 e2 <;>
    simp [objects.Meshblock.get_imin, objects.Meshblock.get_imax, objects.Meshblock.get_jmin,
      objects.Meshblock.get_jmax, objects.Meshblock.get_kmin, objects.Meshblock.get_kmax,
      List.range_succ, Dimension.rank, e0, e1, e2] <;>
    omega

/-- The `Fields<Dim2, TypePIC>` object of resolution 8 x 4 with two ghost layers. -/
theorem fields_ghost_padding_witness :
    framework.Fields.ctor 2 framework.SimType.TypePIC Dimension.TWO_D [8, 4]
        = some { views := [("EM", [12, 8]), ("J", [12, 8]), ("J0", [12, 8])],
                 mirrors := [("EM", [12, 8]), ("J", [12, 8])] } ∧
    (∀ a ∈ ([("EM", [12, 8]), ("J", [12, 8]), ("J0", [12, 8])] : List (String × List ℕ)),
        a.2 = (List.range Dimension.TWO_D.rank).map (fun d => [8, 4].getD d 0 + 2 * 2)) :=
  ⟨rfl, (fields_ghost_padding 2 framework.SimType.TypePIC Dimension.TWO_D [8, 4]
    ([] : List ℚ) _ rfl (fun d hd => by
      have : d < 2 := hd
      interval_cases d <;> simp)).2.1⟩

/-- C11 (evaluation at the failing input). Two ghost layers, `Fields<Dim1, TypePIC>` with the
resolution vector `[4294967295]`: `res[0] + 2 * N_GHOSTS = 4294967299`, but the views `EM`, `J`
and `J0` are allocated with extent 3; the active range of the mesh block of this resolution,
`[2, 4294967297)`, has `res[0]` cells and does not fit into the storage. -/
theorem fields_extent_wraps :
    framework.Fields.ctor 2 framework.SimType.TypePIC Dimension.ONE_D [4294967295]
        = some { views := [("EM", [3]), ("J", [3]), ("J0", [3])],
                 mirrors := [("EM", [3]), ("J", [3])] } ∧
    [4294967295].getD 0 0 + 2 * 2 = 4294967299 ∧
    objects.Meshblock.get_imin 2
        ({ m_extent := [(0 : ℚ), 1], m_resolution := [4294967295] } : objects.Meshblock ℚ) = 2 ∧
    objects.Meshblock.get_imax 2
        ({ m_extent := [(0 : ℚ), 1], m_resolution := [4294967295] } : objects.Meshblock ℚ)
      = 4294967297 ∧
    ¬ (objects.Meshblock.get_imax 2
        ({ m_extent := [(0 : ℚ), 1], m_resolution := [4294967295] } : objects.Meshblock ℚ) ≤ 3) := by
  refine ⟨?_, ?_, ?_, ?_, ?_⟩
  · simp [framework.Fields.ctor, framework.uint_extent, Dimension.rank]
  · simp
  · rfl
  · simp [objects.Meshblock.get_imax]
  · simp [objects.Meshblock.get_imax]

/-! ## The current term of the Ampère update -/

/-- With zero current the kernel leaves the mesh block as it is. -/
theorem engines.CurrentsAmpere_kernel_zero_current {γ : Type} [LinearOrderedField γ]
    (coeff inv_n0 : γ) (mblock : engines.Meshblock γ) (idx : List ℕ) (hJ : ∀ j c, mblock.cur j c = 0) :
    engines.CurrentsAmpere_kernel coeff inv_n0 mblock idx = mblock := by
  unfold engines.CurrentsAmpere_kernel
  have hem : (fun j k =>
      if h : j = idx ∧ k.val < 3 then mblock.em j k + coeff * mblock.cur j ⟨k.val, h.2⟩
      else mblock.em j k) = mblock.em := by
    funext j k
    split_ifs with h
    · rw [hJ, mul_zero, add_zero]
    · rfl
  rw [hem]

/-- With zero current a launch of a kernel that leaves the mesh block as it is does so too. -/
theorem engines.parallel_for_fixed {γ : Type} (range : List (List ℕ))
    (kernel : engines.Meshblock γ → List ℕ → engines.Meshblock γ) (mblock : engines.Meshblock γ)
    (hk : ∀ idx, kernel mblock idx = mblock) :
    engines.parallel_for range kernel mblock = mblock := by
  unfold engines.parallel_for
  induction range with
  | nil => rfl
  | cons idx rest ih => rw [List.foldl_cons, hk idx]; exact ih

/-- With zero current `AmpereCurrents` returns the state it was given. -/
theorem engines.AmpereCurrents_zero_current {γ : Type} [LinearOrderedField γ]
    (MINKOWSKI_METRIC : Bool) (D : Dimension) (self : engines.PIC γ) (hJ : ∀ j c, self.meshblock.cur j c = 0) :
    engines.AmpereCurrents MINKOWSKI_METRIC D self = self := by
  have h1 : ∀ (range : List (List ℕ)), engines.parallel_for range
      (engines.CurrentsAmpere_kernel (engines.AmpereCurrents_coeff MINKOWSKI_METRIC self)
        (engines.AmpereCurrents_inv_n0 self)) self.meshblock = self.meshblock := fun range =>
    engines.parallel_for_fixed range _ _
      (fun idx => engines.CurrentsAmpere_kernel_zero_current _ _ _ idx hJ)
  have h2 : ∀ (range : List (List ℕ)), engines.parallel_for range
      (engines.CurrentsAmperePoles_kernel (engines.AmpereCurrents_coeff MINKOWSKI_METRIC self)
        (engines.AmpereCurrents_inv_n0 self)) self.meshblock = self.meshblock := fun range =>
    engines.parallel_for_fixed range _ _
      (fun idx => engines.CurrentsAmpere_kernel_zero_current _ _ _ _ hJ)
  unfold engines.AmpereCurrents
  cases MINKOWSKI_METRIC
  · simp only [Bool.false_eq_true, if_false]
    rw [h1]
    split_ifs
    · rw [h2]
    · rfl
  · simp only [if_true]
    rw [h1]

/-- C12. In both builds and for every dimension, time step and normalisation parameters: if
every component of the current array is zero in every cell, then after `AmpereCurrents` every
component of the field array `em` (electric and magnetic) in every cell has the value it had
before; in particular fields that are zero stay zero. -/
theorem ampere_zero_current_leaves_fields {γ : Type} [LinearOrderedField γ]
    (MINKOWSKI_METRIC : Bool) (D : Dimension) (self : engines.PIC γ) (hJ : ∀ j c, self.meshblock.cur j c = 0) :
    (∀ j k, (engines.AmpereCurrents MINKOWSKI_METRIC D self).meshblock.em j k
        = self.meshblock.em j k) ∧
    ((∀ j k, self.meshblock.em j k = 0) →
      ∀ j k, (engines.AmpereCurrents MINKOWSKI_METRIC D self).meshblock.em j k = 0) := by
  rw [engines.AmpereCurrents_zero_current MINKOWSKI_METRIC D self hJ]
  exact ⟨fun _ _ => rfl, fun h => h⟩

/-- The curvilinear two-dimensional update of a mesh block with fields `3`, zero current and
time step `1/2`. -/
theorem ampere_zero_current_leaves_fields_witness :
    (∀ j c, (engines.sampleMeshblock (3 : ℚ) 0 (1 / 2)).cur j c = 0) ∧
    (∀ j k, (engines.AmpereCurrents false Dimension.TWO_D
        { meshblock := engines.sampleMeshblock (3 : ℚ) 0 (1 / 2),
          params := { q0 := 1, n0 := 2, B0 := 4, V0 := 1 } }).meshblock.em j k = 3) :=
  ⟨fun _ _ => rfl,
    (ampere_zero_current_leaves_fields false Dimension.TWO_D
      { meshblock := engines.sampleMeshblock (3 : ℚ) 0 (1 / 2),
        params := { q0 := 1, n0 := 2, B0 := 4, V0 := 1 } } (fun _ _ => rfl)).1⟩

/-! ## The constructor of `SimulationParams` and `verify` -/

theorem static_cast_short_rank (dim : Dimension) :
    static_cast_short (dim.rank : ℤ) = (dim.rank : ℤ) := by
  cases dim <;> rfl

theorem static_cast_short_of_lt (n : ℕ) (h : n < 32768) : static_cast_short (n : ℤ) = n := by
  unfold static_cast_short
  omega

theorem readBoundaries_eq (dim : ℤ) (boundaries : List String) :
    ∀ (b : ℤ) (acc : List BoundaryCondition), b < dim →
      readBoundaries dim boundaries b acc
        = acc ++ (boundaries.take (dim - b).toNat).map readBoundary := by
  induction boundaries with
  | nil => intro b acc _; simp [readBoundaries]
  | cons bc rest ih =>
    intro b acc hb
    have h1 : (dim - b).toNat = (dim - (b + 1)).toNat + 1 := by omega
    rw [h1, List.take_succ_cons, List.map_cons]
    unfold readBoundaries
    by_cases hge : b + 1 ≥ dim
    · have h0 : (dim - (b + 1)).toNat = 0 := by omega
      simp [hge, h0]
    · simp only [hge, if_false]
      rw [ih (b + 1) _ (by omega)]
      simp

/-- What a successfully constructed object holds. -/
theorem SimulationParams.ctor_ok (inputdata : InputData α) (dim : Dimension)
    (p : SimulationParams α) (h : SimulationParams.ctor inputdata dim = .ok p) :
    readCoordSystem (inputdata.domain_coord_system.getD "Cartesian") = .ok p.m_coord_system ∧
    p.m_simtype = SimulationType.PIC_SIM ∧
    p.m_species = (List.range inputdata.particles_n_species.toNat).map
      (fun i => readSpecies inputdata i) ∧
    p.m_resolution = inputdata.domain_resolution.take dim.rank ∧
    p.m_extent = inputdata.domain_extent.take (2 * dim.rank) ∧
    p.m_boundaries = (inputdata.domain_boundaries.take dim.rank).map readBoundary := by
  unfold SimulationParams.ctor at h
  simp only [static_cast_short_rank] at h
  split at h
  · exact absurd h (by simp)
  · rename_i cs hcs
    split_ifs at h with h1 h2
    simp only [Except.ok.injEq] at h
    subst h
    refine ⟨hcs, rfl, rfl, ?_, ?_, ?_⟩
    · simp
    · simp
      rfl
    · have := readBoundaries_eq (dim.rank : ℤ) inputdata.domain_boundaries 0 []
        (by cases dim <;> simp [Dimension.rank])
      simpa using this

theorem readCoordSystem_ne_undefined (coords : String) (cs : CoordinateSystem)
    (h : readCoordSystem coords = .ok cs) : cs ≠ CoordinateSystem.UNDEFINED_COORD := by
  unfold readCoordSystem at h
  split_ifs at h <;> simp only [Except.ok.injEq, reduceCtorEq] at h <;> subst h <;> simp

/-- The constructor succeeds on an input with a recognised coordinate system, enough (and fewer
than 32768) entries in `resolution` and `extent`, and a positive CFL number. -/
theorem SimulationParams.ctor_isOk (inputdata : InputData α) (dim : Dimension)
    (cs : CoordinateSystem)
    (hcs : readCoordSystem (inputdata.domain_coord_system.getD "Cartesian") = .ok cs)
    (hr : dim.rank ≤ inputdata.domain_resolution.length)
    (hr' : inputdata.domain_resolution.length < 32768)
    (he : 2 * dim.rank ≤ inputdata.domain_extent.length)
    (he' : inputdata.domain_extent.length < 32768)
    (hcfl : 0 < inputdata.algorithm_CFL.getD (95 / 100)) :
    ∃ p, SimulationParams.ctor inputdata dim = .ok p := by
  unfold SimulationParams.ctor
  simp only [static_cast_short_rank, hcs, static_cast_short_of_lt _ hr',
    static_cast_short_of_lt _ he']
  have h1 : ¬ (((inputdata.domain_resolution.length : ℤ) < (dim.rank : ℤ))
      ∨ ((inputdata.domain_extent.length : ℤ) < 2 * (dim.rank : ℤ))) := by omega
  simp only [h1, if_false, gt_iff_lt, hcfl, not_true_eq_false]
  exact ⟨_, rfl⟩

/-- The constructor throws when `resolution` or `extent` is too short. -/
theorem SimulationParams.ctor_short (inputdata : InputData α) (dim : Dimension)
    (cs : CoordinateSystem)
    (hcs : readCoordSystem (inputdata.domain_coord_system.getD "Cartesian") = .ok cs)
    (h : inputdata.domain_resolution.length < dim.rank
      ∨ inputdata.domain_extent.length < 2 * dim.rank) :
    SimulationParams.ctor inputdata dim
      = .error (.invalid_argument "Not enough values in `extent` or `resolution` input.") := by
  unfold SimulationParams.ctor
  simp only [static_cast_short_rank, hcs]
  have hd : dim.rank ≤ 3 := by cases dim <;> simp [Dimension.rank]
  have h1 : static_cast_short (inputdata.domain_resolution.length : ℤ) < (dim.rank : ℤ)
      ∨ static_cast_short (inputdata.domain_extent.length : ℤ) < 2 * (dim.rank : ℤ) := by
    rcases h with h | h
    · left
      rw [static_cast_short_of_lt _ (by omega)]
      exact_mod_cast h
    · right
      rw [static_cast_short_of_lt _ (by omega)]
      exact_mod_cast h
  simp only [h1, if_true]

/-- The result of `verify` on a constructed object. -/
theorem SimulationParams.verify_of_ctor (inputdata : InputData α) (dim : Dimension)
    (p : SimulationParams α) (h : SimulationParams.ctor inputdata dim = .ok p) :
    SimulationParams.verify p
      = if BoundaryCondition.UNDEFINED_BC
            ∈ (inputdata.domain_boundaries.take dim.rank).map readBoundary then
          .error (.logic_error "ERROR: boundary conditions unspecified.")
        else .ok () := by
  obtain ⟨hcs, hsim, -, -, -, hb⟩ := SimulationParams.ctor_ok inputdata dim p h
  unfold SimulationParams.verify
  rw [hsim, hb]
  simp only [reduceCtorEq, if_false, readCoordSystem_ne_undefined _ _ hcs]

theorem readBoundary_undefined_iff (bc : String) :
    readBoundary bc = BoundaryCondition.UNDEFINED_BC ↔ bc ≠ "PERIODIC" ∧ bc ≠ "OPEN" := by
  unfold readBoundary
  split_ifs with h1 h2 <;> simp_all

/-- C14 (counterexample). In one dimension the input with `resolution = [8, 8]` (two entries)
and `extent = [0, 8, 0, 8]` (four entries) is not rejected: the constructor returns an object. -/
theorem ctor_rank_mismatch_counterexample :
    (sampleInput [8, 8] [(0 : ℚ), 8, 0, 8] ["PERIODIC"] none none).domain_resolution.length
        ≠ Dimension.ONE_D.rank ∧
    (sampleInput [8, 8] [(0 : ℚ), 8, 0, 8] ["PERIODIC"] none none).domain_extent.length
        ≠ 2 * Dimension.ONE_D.rank ∧
    ¬ ∃ what, SimulationParams.ctor
        (sampleInput [8, 8] [(0 : ℚ), 8, 0, 8] ["PERIODIC"] none none) Dimension.ONE_D
          = .error (.invalid_argument what) := by
  refine ⟨by decide, by decide, ?_⟩
  obtain ⟨p, hp⟩ := SimulationParams.ctor_isOk
    (sampleInput [8, 8] [(0 : ℚ), 8, 0, 8] ["PERIODIC"] none none) Dimension.ONE_D
    CoordinateSystem.CARTESIAN_COORD (by simp [sampleInput, readCoordSystem])
    (by simp [sampleInput, Dimension.rank]) (by simp [sampleInput])
    (by simp [sampleInput, Dimension.rank]) (by simp [sampleInput])
    (by norm_num [sampleInput])
  rw [hp]
  simp

/-- C14 (as amended). For every dimension `D` and every input with a recognised coordinate
system: if `resolution` has fewer than `D` entries or `extent` fewer than `2 * D`, the
constructor throws `invalid_argument`; if they have at least that many (and fewer than 32768)
and the CFL number is positive, the constructor returns an object that keeps the first `D`
entries of `resolution` and the first `2 * D` entries of `extent`. -/
theorem ctor_rank_check (inputdata : InputData α) (dim : Dimension) (cs : CoordinateSystem)
    (hcs : readCoordSystem (inputdata.domain_coord_system.getD "Cartesian") = .ok cs) :
    ((inputdata.domain_resolution.length < dim.rank
        ∨ inputdata.domain_extent.length < 2 * dim.rank) →
      SimulationParams.ctor inputdata dim
        = .error (.invalid_argument "Not enough values in `extent` or `resolution` input.")) ∧
    ((dim.rank ≤ inputdata.domain_resolution.length
        ∧ inputdata.domain_resolution.length < 32768
        ∧ 2 * dim.rank ≤ inputdata.domain_extent.length
        ∧ inputdata.domain_extent.length < 32768
        ∧ 0 < inputdata.algorithm_CFL.getD (95 / 100)) →
      ∃ p, SimulationParams.ctor inputdata dim = .ok p
        ∧ p.m_resolution = inputdata.domain_resolution.take dim.rank
        ∧ p.m_extent = inputdata.domain_extent.take (2 * dim.rank)) := by
  refine ⟨SimulationParams.ctor_short inputdata dim cs hcs, ?_⟩
  rintro ⟨hr, hr', he, he', hcfl⟩
  obtain ⟨p, hp⟩ := SimulationParams.ctor_isOk inputdata dim cs hcs hr hr' he he' hcfl
  obtain ⟨-, -, -, h4, h5, -⟩ := SimulationParams.ctor_ok inputdata dim p hp
  exact ⟨p, hp, h4, h5⟩

/-- In two dimensions the input with one resolution entry is rejected, and the input with three
resolution entries and six extent entries is accepted and cut to two and four entries. -/
theorem ctor_rank_check_witness :
    SimulationParams.ctor (sampleInput [8] [(0 : ℚ), 8] ["PERIODIC"] none none)
        Dimension.TWO_D
      = .error (.invalid_argument "Not enough values in `extent` or `resolution` input.") ∧
    ∃ p, SimulationParams.ctor
        (sampleInput [8, 4, 2] [(0 : ℚ), 8, 0, 4, 0, 2] ["PERIODIC"] none none) Dimension.TWO_D
          = .ok p
      ∧ p.m_resolution = [8, 4] ∧ p.m_extent = [0, 8, 0, 4] :=
  ⟨(ctor_rank_check (sampleInput [8] [(0 : ℚ), 8] ["PERIODIC"] none none) Dimension.TWO_D
      CoordinateSystem.CARTESIAN_COORD (by simp [sampleInput, readCoordSystem])).1
      (by simp [sampleInput, Dimension.rank]),
    (ctor_rank_check (sampleInput [8, 4, 2] [(0 : ℚ), 8, 0, 4, 0, 2] ["PERIODIC"] none none)
      Dimension.TWO_D CoordinateSystem.CARTESIAN_COORD
      (by simp [sampleInput, readCoordSystem])).2
      ⟨by simp [sampleInput, Dimension.rank], by simp [sampleInput],
        by simp [sampleInput, Dimension.rank], by simp [sampleInput],
        by norm_num [sampleInput]⟩⟩

/-- C15. For every object built by the constructor for dimension `D`: `verify()` throws
`logic_error` if one of the boundary strings read (the first `D` entries of `boundaries`) is
neither `PERIODIC` nor `OPEN`, and returns normally if each of them is `PERIODIC` or `OPEN`. -/
theorem verify_boundary_kinds (inputdata : InputData α) (dim : Dimension)
    (p : SimulationParams α) (h : SimulationParams.ctor inputdata dim = .ok p) :
    ((∃ bc ∈ inputdata.domain_boundaries.take dim.rank, bc ≠ "PERIODIC" ∧ bc ≠ "OPEN") →
      SimulationParams.verify p
        = .error (.logic_error "ERROR: boundary conditions unspecified.")) ∧
    ((∀ bc ∈ inputdata.domain_boundaries.take dim.rank, bc = "PERIODIC" ∨ bc = "OPEN") →
      SimulationParams.verify p = .ok ()) := by
  rw [SimulationParams.verify_of_ctor inputdata dim p h]
  constructor
  · rintro ⟨bc, hbc, hne⟩
    have hmem : BoundaryCondition.UNDEFINED_BC
        ∈ (inputdata.domain_boundaries.take dim.rank).map readBoundary :=
      List.mem_map.mpr ⟨bc, hbc, (readBoundary_undefined_iff bc).mpr hne⟩
    rw [if_pos hmem]
  · intro hall
    have hmem : BoundaryCondition.UNDEFINED_BC
        ∉ (inputdata.domain_boundaries.take dim.rank).map readBoundary := by
      intro hm
      obtain ⟨bc, hbc, hund⟩ := List.mem_map.mp hm
      obtain ⟨h1, h2⟩ := (readBoundary_undefined_iff bc).mp hund
      rcases hall bc hbc with h' | h'
      · exact h1 h'
      · exact h2 h'
    rw [if_neg hmem]

/-- In two dimensions the boundaries `PERIODIC, REFLECT` make `verify` throw and the boundaries
`PERIODIC, OPEN` let it return. -/
theorem verify_boundary_kinds_witness :
    (∃ p, SimulationParams.ctor
        (sampleInput [8, 4] [(0 : ℚ), 8, 0, 4] ["PERIODIC", "REFLECT"] none none)
        Dimension.TWO_D = .ok p
      ∧ SimulationParams.verify p
        = .error (.logic_error "ERROR: boundary conditions unspecified.")) ∧
    (∃ p, SimulationParams.ctor
        (sampleInput [8, 4] [(0 : ℚ), 8, 0, 4] ["PERIODIC", "OPEN"] none none)
        Dimension.TWO_D = .ok p
      ∧ SimulationParams.verify p = .ok ()) :=
  have ⟨p1, h1⟩ := SimulationParams.ctor_isOk
    (sampleInput [8, 4] [(0 : ℚ), 8, 0, 4] ["PERIODIC", "REFLECT"] none none) Dimension.TWO_D
    CoordinateSystem.CARTESIAN_COORD (by simp [sampleInput, readCoordSystem])
    (by simp [sampleInput, Dimension.rank]) (by simp [sampleInput])
    (by simp [sampleInput, Dimension.rank]) (by simp [sampleInput])
    (by norm_num [sampleInput])
  have ⟨p2, h2⟩ := SimulationParams.ctor_isOk
    (sampleInput [8, 4] [(0 : ℚ), 8, 0, 4] ["PERIODIC", "OPEN"] none none) Dimension.TWO_D
    CoordinateSystem.CARTESIAN_COORD (by simp [sampleInput, readCoordSystem])
    (by simp [sampleInput, Dimension.rank]) (by simp [sampleInput])
    (by simp [sampleInput, Dimension.rank]) (by simp [sampleInput])
    (by norm_num [sampleInput])
  ⟨⟨p1, h1, (verify_boundary_kinds _ _ p1 h1).1
      ⟨"REFLECT", by simp [sampleInput, Dimension.rank], by decide, by decide⟩⟩,
    ⟨p2, h2, (verify_boundary_kinds _ _ p2 h2).2
      (by simp [sampleInput, Dimension.rank])⟩⟩

/-- C16 (evaluation at the failing input). The one-dimensional input whose only species has
mass 1, charge -1 and pusher string `Foo` is accepted by the constructor and by `verify()`, and
the pusher stored for the species is `UNDEFINED_PUSHER`. -/
theorem undefined_pusher_accepted :
    ∃ p, SimulationParams.ctor
        (sampleInput [8] [(0 : ℚ), 8] ["PERIODIC"] none (some "Foo")) Dimension.ONE_D = .ok p
      ∧ SimulationParams.verify p = .ok ()
      ∧ p.m_species.map (fun s => s.pusher) = [ParticlePusher.UNDEFINED_PUSHER] := by
  obtain ⟨p, hp⟩ := SimulationParams.ctor_isOk
    (sampleInput [8] [(0 : ℚ), 8] ["PERIODIC"] none (some "Foo")) Dimension.ONE_D
    CoordinateSystem.CARTESIAN_COORD (by simp [sampleInput, readCoordSystem])
    (by simp [sampleInput, Dimension.rank]) (by simp [sampleInput])
    (by simp [sampleInput, Dimension.rank]) (by simp [sampleInput])
    (by norm_num [sampleInput])
  refine ⟨p, hp, ?_, ?_⟩
  · rw [SimulationParams.verify_of_ctor _ _ p hp]
    simp [sampleInput, Dimension.rank, readBoundary]
  · obtain ⟨-, -, hs, -, -, -⟩ := SimulationParams.ctor_ok _ _ p hp
    rw [hs]
    simp [sampleInput, readSpecies, selectPusher, List.range_succ]

/-- C17. For every object built by the constructor, the species list has one entry per species
of the input, and the pusher stored for species `i` is `PHOTON_PUSHER` if and only if its mass
and charge are both zero; for a species that is not of this kind the string `Vay` selects
`VAY_PUSHER`, and the string `Boris` or an absent key selects `BORIS_PUSHER`. -/
theorem pusher_selection (inputdata : InputData α) (dim : Dimension) (p : SimulationParams α)
    (h : SimulationParams.ctor inputdata dim = .ok p) :
    p.m_species.length = inputdata.particles_n_species.toNat ∧
    ∀ (i : ℕ) (sp : ParticleSpecies α), p.m_species[i]? = some sp →
      (sp.pusher = ParticlePusher.PHOTON_PUSHER
        ↔ (inputdata.species (i + 1)).mass = 0 ∧ (inputdata.species (i + 1)).charge = 0) ∧
      (¬ ((inputdata.species (i + 1)).mass = 0 ∧ (inputdata.species (i + 1)).charge = 0) →
        ((inputdata.species (i + 1)).pusher = some "Vay"
          → sp.pusher = ParticlePusher.VAY_PUSHER) ∧
        (((inputdata.species (i + 1)).pusher = some "Boris"
            ∨ (inputdata.species (i + 1)).pusher = none)
          → sp.pusher = ParticlePusher.BORIS_PUSHER)) := by
  obtain ⟨-, -, hs, -, -, -⟩ := SimulationParams.ctor_ok inputdata dim p h
  rw [hs]
  refine ⟨by simp, ?_⟩
  intro i sp hsp
  rw [List.getElem?_map] at hsp
  cases hr : (List.range inputdata.particles_n_species.toNat)[i]? with
  | none => rw [hr] at hsp; simp at hsp
  | some k =>
    rw [hr] at hsp
    have hk : k = i := by
      rw [List.getElem?_eq_some_iff] at hr
      obtain ⟨hlt, heq⟩ := hr
      simpa using heq.symm
    subst hk
    simp only [Option.map_some', Option.some.injEq] at hsp
    subst hsp
    simp only [readSpecies, selectPusher]
    refine ⟨?_, ?_⟩
    · constructor
      · intro hph
        by_contra hne
        rw [if_neg hne] at hph
        split_ifs at hph
      · intro hz
        rw [if_pos hz]
    · intro hne
      rw [if_neg hne]
      refine ⟨fun hv => by simp [hv], fun hb => ?_⟩
      rcases hb with hb | hb <;> simp [hb]

/-- The species of the sample input (mass 1, charge -1) with pusher string `Vay`: the object is
built, has one species, and that species is pushed by `VAY_PUSHER`. -/
theorem pusher_selection_witness :
    ∃ p, SimulationParams.ctor
        (sampleInput [8] [(0 : ℚ), 8] ["PERIODIC"] none (some "Vay")) Dimension.ONE_D = .ok p
      ∧ p.m_species.length = 1
      ∧ ∀ sp, p.m_species[0]? = some sp → sp.pusher = ParticlePusher.VAY_PUSHER :=
  have ⟨p, hp⟩ := SimulationParams.ctor_isOk
    (sampleInput [8] [(0 : ℚ), 8] ["PERIODIC"] none (some "Vay")) Dimension.ONE_D
    CoordinateSystem.CARTESIAN_COORD (by simp [sampleInput, readCoordSystem])
    (by simp [sampleInput, Dimension.rank]) (by simp [sampleInput])
    (by simp [sampleInput, Dimension.rank]) (by simp [sampleInput])
    (by norm_num [sampleInput])
  ⟨p, hp, (pusher_selection _ _ p hp).1, fun sp hsp =>
    (((pusher_selection _ _ p hp).2 0 sp hsp).2 (by norm_num [sampleInput])).1 rfl⟩

/-- C18 (counterexample). The input whose coordinate system is `GR` is rejected by the
constructor with `invalid_argument`. -/
theorem ctor_rejects_GR :
    SimulationParams.ctor
        (sampleInput [8, 4] [(0 : ℚ), 8, 0, 4] ["PERIODIC", "OPEN"] (some "GR") none)
        Dimension.TWO_D
      = .error (.invalid_argument "Unknown coordinate system specified in the input.") := by
  unfold SimulationParams.ctor
  have hcs : readCoordSystem
      ((sampleInput [8, 4] [(0 : ℚ), 8, 0, 4] ["PERIODIC", "OPEN"] (some "GR")
        none).domain_coord_system.getD "Cartesian")
      = .error (.invalid_argument "Unknown coordinate system specified in the input.") := by
    simp [sampleInput, readCoordSystem]
  simp only [hcs]

/-- The constructor throws the exception of `readCoordSystem` when that throws. -/
theorem SimulationParams.ctor_coord_error (inputdata : InputData α) (dim : Dimension)
    (e : Exception)
    (h : readCoordSystem (inputdata.domain_coord_system.getD "Cartesian") = .error e) :
    SimulationParams.ctor inputdata dim = .error e := by
  unfold SimulationParams.ctor
  simp only [h]

/-- The constructor does not throw the coordinate-system exception when the name is
recognised. -/
theorem SimulationParams.ctor_coord_ok (inputdata : InputData α) (dim : Dimension)
    (cs : CoordinateSystem)
    (h : readCoordSystem (inputdata.domain_coord_system.getD "Cartesian") = .ok cs) :
    SimulationParams.ctor inputdata dim
      ≠ .error (.invalid_argument "Unknown coordinate system specified in the input.") := by
  unfold SimulationParams.ctor
  simp only [h]
  split_ifs <;> simp

/-- C18 (as amended). The constructor recognises exactly the names `Cartesian`, `Spherical` and
`Cylindrical`: for each of them it does not throw the unknown-coordinate-system exception and
every object it builds stores the corresponding (defined) coordinate system; an absent key is
read as `Cartesian`; every other name, `GR` among them, is rejected with `invalid_argument`. -/
theorem ctor_coord_system (inputdata : InputData α) (dim : Dimension) :
    (∀ (name : String) (cs : CoordinateSystem),
        (name, cs) ∈ [("Cartesian", CoordinateSystem.CARTESIAN_COORD),
                      ("Spherical", CoordinateSystem.SPHERICAL_COORD),
                      ("Cylindrical", CoordinateSystem.CYLINDRICAL_COORD)] →
        (inputdata.domain_coord_system = some name
          ∨ (inputdata.domain_coord_system = none ∧ name = "Cartesian")) →
        SimulationParams.ctor inputdata dim
          ≠ .error (.invalid_argument "Unknown coordinate system specified in the input.") ∧
        ∀ p, SimulationParams.ctor inputdata dim = .ok p →
          p.m_coord_system = cs ∧ cs ≠ CoordinateSystem.UNDEFINED_COORD) ∧
    (∀ name : String, inputdata.domain_coord_system = some name →
        name ≠ "Cartesian" → name ≠ "Spherical" → name ≠ "Cylindrical" →
        SimulationParams.ctor inputdata dim
          = .error (.invalid_argument "Unknown coordinate system specified in the input.")) := by
  constructor
  · intro name cs hmem hin
    have hcoords : inputdata.domain_coord_system.getD "Cartesian" = name := by
      rcases hin with hin | ⟨hin, hname⟩
      · rw [hin]; rfl
      · rw [hin, hname]; rfl
    have hcs : readCoordSystem (inputdata.domain_coord_system.getD "Cartesian") = .ok cs := by
      rw [hcoords]
      simp only [List.mem_cons, Prod.mk.injEq, List.mem_singleton, List.not_mem_nil,
        or_false] at hmem
      rcases hmem with ⟨h1, h2⟩ | ⟨h1, h2⟩ | ⟨h1, h2⟩ <;> subst h1 <;> subst h2 <;>
        simp [readCoordSystem]
    refine ⟨SimulationParams.ctor_coord_ok inputdata dim cs hcs, fun p hp => ?_⟩
    obtain ⟨hcs', -, -, -, -, -⟩ := SimulationParams.ctor_ok inputdata dim p hp
    rw [hcs] at hcs'
    simp only [Except.ok.injEq] at hcs'
    exact ⟨hcs'.symm, readCoordSystem_ne_undefined _ _ hcs⟩
  · intro name hin h1 h2 h3
    apply SimulationParams.ctor_coord_error
    rw [hin]
    simp [readCoordSystem, h1, h2, h3]

/-- The input with coordinate system `Spherical` is accepted and stores `SPHERICAL_COORD`. -/
theorem ctor_coord_system_witness :
    ∃ p, SimulationParams.ctor
        (sampleInput [8, 4] [(0 : ℚ), 8, 0, 4] ["PERIODIC", "OPEN"] (some "Spherical") none)
        Dimension.TWO_D = .ok p
      ∧ p.m_coord_system = CoordinateSystem.SPHERICAL_COORD :=
  have ⟨p, hp⟩ := SimulationParams.ctor_isOk
    (sampleInput [8, 4] [(0 : ℚ), 8, 0, 4] ["PERIODIC", "OPEN"] (some "Spherical") none)
    Dimension.TWO_D CoordinateSystem.SPHERICAL_COORD (by simp [sampleInput, readCoordSystem])
    (by simp [sampleInput, Dimension.rank]) (by simp [sampleInput])
    (by simp [sampleInput, Dimension.rank]) (by simp [sampleInput])
    (by norm_num [sampleInput])
  ⟨p, hp, (((ctor_coord_system
    (sampleInput [8, 4] [(0 : ℚ), 8, 0, 4] ["PERIODIC", "OPEN"] (some "Spherical") none)
    Dimension.TWO_D).1 "Spherical" CoordinateSystem.SPHERICAL_COORD (by simp)
    (Or.inl rfl)).2 p hp).1⟩

/-! ## Frame of the deposit kernel -/

/-- C19. In every dimension, for every functor state and every particle index `p`, after the
kernel `operator()(p)`, and after the whole loop `depositCurrents`, the field array `em`
(every E and B value) and the particle arrays (particle count, cell indices, offsets and momentum
components of every particle) are those before it. -/
theorem deposit_leaves_fields_and_particles (N_GHOSTS : ℕ) (sqrt : α → α) (D : Dimension)
    (self : Deposit α D.rank) (p : ℕ) :
    (Deposit.call N_GHOSTS sqrt D self p).m_mblock.em = self.m_mblock.em ∧
    (Deposit.call N_GHOSTS sqrt D self p).m_particles = self.m_particles ∧
    (Deposit.depositCurrents N_GHOSTS sqrt D self).m_mblock.em = self.m_mblock.em ∧
    (Deposit.depositCurrents N_GHOSTS sqrt D self).m_particles = self.m_particles := by
  rw [Deposit.call_eq_self, Deposit.depositCurrents_eq_self]
  exact ⟨rfl, rfl, rfl, rfl⟩

/-! ## `raise::Error`, `raise::Fatal` and their conditional forms -/

/-- C20. For every condition, message, file, function and line: `raise::Error` throws
`logic_error` and `raise::Fatal` throws `runtime_error` (neither returns), the text of the
exception being `msg + " " + file + " : " + func + " @ " + line`, which begins with the message
and contains the file, the function and the line; `raise::ErrorIf` and `raise::FatalIf` throw,
the same exceptions, if and only if the condition is true, and return otherwise. -/
theorem raise_conditional (condition : Bool) (msg file func : String) (line : ℤ) :
    raise.Error msg file func line
      = .error (.logic_error (msg ++ " " ++ file ++ " : " ++ func ++ " @ " ++ toString line)) ∧
    raise.Fatal msg file func line
      = .error (.runtime_error
          (msg ++ " " ++ file ++ " : " ++ func ++ " @ " ++ toString line)) ∧
    (raise.ErrorIf condition msg file func line ≠ .ok () ↔ condition = true) ∧
    (raise.FatalIf condition msg file func line ≠ .ok () ↔ condition = true) ∧
    (condition = true →
      raise.ErrorIf condition msg file func line = raise.Error msg file func line ∧
      raise.FatalIf condition msg file func line = raise.Fatal msg file func line) ∧
    (condition = false →
      raise.ErrorIf condition msg file func line = .ok () ∧
      raise.FatalIf condition msg file func line = .ok ()) ∧
    msg.data <+: (msg ++ " " ++ file ++ " : " ++ func ++ " @ " ++ toString line).data ∧
    file.data <:+: (msg ++ " " ++ file ++ " : " ++ func ++ " @ " ++ toString line).data ∧
    func.data <:+: (msg ++ " " ++ file ++ " : " ++ func ++ " @ " ++ toString line).data ∧
    (toString line).data
      <:+: (msg ++ " " ++ file ++ " : " ++ func ++ " @ " ++ toString line).data := by
  refine ⟨rfl, rfl, ?_, ?_, ?_, ?_, ?_, ?_, ?_, ?_⟩
  · cases condition <;> simp [raise.ErrorIf, raise.Error]
  · cases condition <;> simp [raise.FatalIf, raise.Fatal]
  · intro hc; subst hc; exact ⟨rfl, rfl⟩
  · intro hc; subst hc; exact ⟨rfl, rfl⟩
  · simp only [String.data_append, List.append_assoc]
    exact List.prefix_append _ _
  · simp only [String.data_append, List.append_assoc]
    exact ⟨msg.data ++ " ".data, " : ".data ++ (func.data ++ (" @ ".data ++ (toString line).data)),
      by simp⟩
  · simp only [String.data_append, List.append_assoc]
    exact ⟨msg.data ++ (" ".data ++ (file.data ++ " : ".data)),
      " @ ".data ++ (toString line).data, by simp⟩
  · simp only [String.data_append, List.append_assoc]
    exact ⟨msg.data ++ (" ".data ++ (file.data ++ (" : ".data ++ (func.data ++ " @ ".data)))),
      [], by simp⟩

/-! ## The launch ranges of `AmpereCurrents` -/

theorem engines.mem_CreateRangePolicy_one (a b : ℕ) (t : List ℕ) :
    t ∈ engines.CreateRangePolicy [a] [b] ↔ ∃ i, t = [i] ∧ a ≤ i ∧ i < b := by
  simp only [engines.CreateRangePolicy, List.mem_flatMap, List.mem_range'_1, List.map_cons,
    List.map_nil, List.mem_singleton]
  constructor
  · rintro ⟨i, ⟨h1, h2⟩, rfl⟩
    exact ⟨i, rfl, h1, by omega⟩
  · rintro ⟨i, rfl, h1, h2⟩
    exact ⟨i, ⟨h1, by omega⟩, rfl⟩

theorem engines.mem_CreateRangePolicy_two (a1 a2 b1 b2 : ℕ) (t : List ℕ) :
    t ∈ engines.CreateRangePolicy [a1, a2] [b1, b2]
      ↔ ∃ i j, t = [i, j] ∧ (a1 ≤ i ∧ i < b1) ∧ (a2 ≤ j ∧ j < b2) := by
  simp only [engines.CreateRangePolicy, List.mem_flatMap, List.mem_range'_1, List.map_cons,
    List.map_nil, List.mem_singleton, List.mem_map]
  constructor
  · rintro ⟨i, ⟨h1, h2⟩, _, ⟨j, ⟨h3, h4⟩, rfl⟩, rfl⟩
    exact ⟨i, j, rfl, ⟨h1, by omega⟩, ⟨h3, by omega⟩⟩
  · rintro ⟨i, j, rfl, ⟨h1, h2⟩, ⟨h3, h4⟩⟩
    exact ⟨i, ⟨h1, by omega⟩, [j], ⟨j, ⟨h3, by omega⟩, rfl⟩, rfl⟩

theorem engines.mem_CreateRangePolicy_three (a1 a2 a3 b1 b2 b3 : ℕ) (t : List ℕ) :
    t ∈ engines.CreateRangePolicy [a1, a2, a3] [b1, b2, b3]
      ↔ ∃ i j k, t = [i, j, k] ∧ (a1 ≤ i ∧ i < b1) ∧ (a2 ≤ j ∧ j < b2) ∧ (a3 ≤ k ∧ k < b3) := by
  simp only [engines.CreateRangePolicy, List.mem_flatMap, List.mem_range'_1, List.map_cons,
    List.map_nil, List.mem_singleton, List.mem_map]
  constructor
  · rintro ⟨i, ⟨h1, h2⟩, _, ⟨j, ⟨h3, h4⟩, _, ⟨k, ⟨h5, h6⟩, rfl⟩, rfl⟩, rfl⟩
    exact ⟨i, j, k, rfl, ⟨h1, by omega⟩, ⟨h3, by omega⟩, ⟨h5, by omega⟩⟩
  · rintro ⟨i, j, k, rfl, ⟨h1, h2⟩, ⟨h3, h4⟩, ⟨h5, h6⟩⟩
    exact ⟨i, ⟨h1, by omega⟩, [j, k], ⟨j, ⟨h3, by omega⟩, [k], ⟨k, ⟨h5, by omega⟩, rfl⟩, rfl⟩,
      rfl⟩

/-- A launch of the interior kernel leaves the fields of a cell outside its range as they
are. -/
theorem engines.parallel_for_em_of_not_mem {γ : Type} [LinearOrderedField γ] (coeff inv_n0 : γ)
    (range : List (List ℕ)) (mblock : engines.Meshblock γ) (j : List ℕ) (hj : j ∉ range) :
    (engines.parallel_for range (engines.CurrentsAmpere_kernel coeff inv_n0) mblock).em j
      = mblock.em j := by
  unfold engines.parallel_for
  induction range generalizing mblock with
  | nil => rfl
  | cons idx rest ih =>
    rw [List.foldl_cons, ih _ (fun h => hj (List.mem_cons_of_mem _ h))]
    funext k
    have hne : ¬ (j = idx ∧ k.val < 3) := fun h => hj (h.1 ▸ List.mem_cons_self _ _)
    simp only [engines.CurrentsAmpere_kernel, hne, dite_false]

/-- C22 (evaluation at the failing input). Curvilinear build, three dimensions, the mesh block of
4 x 4 x 4 active cells `[2, 6)` on each axis, zero fields, current 1 in every component and unit
parameters (so `coeff = -1`): the cell `(2, 2, 2)` is an active cell, every launch is a launch of
the interior kernel, none of them is on `(2, 2, 2)`, and after `AmpereCurrents` the electric
field of that cell is still zero. -/
theorem ampere_3D_axis_row_not_launched :
    [2, 2, 2] ∈ (engines.sampleMeshblock (0 : ℚ) 1 1).rangeActiveCells Dimension.THREE_D ∧
    (∀ l ∈ engines.AmpereCurrents_launches false Dimension.THREE_D
        (engines.sampleMeshblock (0 : ℚ) 1 1),
      l.1 = engines.KernelKind.interior ∧ l.2 ≠ [2, 2, 2]) ∧
    engines.AmpereCurrents_coeff false
        ({ meshblock := engines.sampleMeshblock (0 : ℚ) 1 1,
           params := { q0 := 1, n0 := 1, B0 := 1, V0 := 1 } } : engines.PIC ℚ) = -1 ∧
    (∀ k, (engines.AmpereCurrents false Dimension.THREE_D
        ({ meshblock := engines.sampleMeshblock (0 : ℚ) 1 1,
           params := { q0 := 1, n0 := 1, B0 := 1, V0 := 1 } } : engines.PIC ℚ)).meshblock.em
          [2, 2, 2] k = 0) := by
  have hnot : [2, 2, 2] ∉ engines.AmpereCurrents_range Dimension.THREE_D
      (engines.sampleMeshblock (0 : ℚ) 1 1) := by
    simp only [engines.AmpereCurrents_range, engines.sampleMeshblock,
      engines.mem_CreateRangePolicy_three]
    rintro ⟨i, j, k, h, -, ⟨h2, -⟩, -⟩
    simp only [List.cons.injEq, and_true] at h
    omega
  refine ⟨?_, ?_, ?_, ?_⟩
  · simp only [engines.Meshblock.rangeActiveCells, engines.sampleMeshblock,
      engines.mem_CreateRangePolicy_three]
    exact ⟨2, 2, 2, rfl, by omega, by omega, by omega⟩
  · intro l hl
    simp only [engines.AmpereCurrents_launches, Bool.false_eq_true, if_false, reduceCtorEq,
      List.append_nil, List.mem_map] at hl
    obtain ⟨idx, hidx, rfl⟩ := hl
    exact ⟨rfl, fun h => hnot (h ▸ hidx)⟩
  · norm_num [engines.AmpereCurrents_coeff, engines.sampleMeshblock]
  · intro k
    simp only [engines.AmpereCurrents, Bool.false_eq_true, if_false, reduceCtorEq]
    rw [engines.parallel_for_em_of_not_mem _ _ _ _ _ hnot]
    rfl

/-- C23. In both builds and for every dimension, every launch of `AmpereCurrents` is a launch of
the interior kernel on an index tuple with one entry per axis, or a launch of the pole kernel on
a single index, and every entry of the launch index lies in the range `[i_min, i_max)` of the
active cells of its axis. -/
theorem ampere_launches_in_active_range {γ : Type} (MINKOWSKI_METRIC : Bool) (D : Dimension)
    (mblock : engines.Meshblock γ) (l : engines.KernelKind × List ℕ)
    (hl : l ∈ engines.AmpereCurrents_launches MINKOWSKI_METRIC D mblock) :
    (l.1 = engines.KernelKind.interior → l.2.length = D.rank) ∧
    (l.1 = engines.KernelKind.poles → l.2.length = 1) ∧
    ∀ d, d < l.2.length →
      [mblock.i1_min, mblock.i2_min, mblock.i3_min].getD d 0 ≤ l.2.getD d 0 ∧
      l.2.getD d 0 < [mblock.i1_max, mblock.i2_max, mblock.i3_max].getD d 0 := by
  unfold engines.AmpereCurrents_launches at hl
  cases MINKOWSKI_METRIC <;> cases D <;>
    simp only [Bool.false_eq_true, if_false, if_true, reduceCtorEq, List.append_nil,
      List.mem_append, List.mem_map, engines.AmpereCurrents_range,
      engines.Meshblock.rangeActiveCells, engines.mem_CreateRangePolicy_one,
      engines.mem_CreateRangePolicy_two, engines.mem_CreateRangePolicy_three] at hl
  all_goals
    first
    | (rcases hl with ⟨idx, ⟨i, j, rfl, h1, h2⟩, rfl⟩ | ⟨idx, ⟨i, rfl, h1⟩, rfl⟩
       · refine ⟨fun _ => rfl, fun h => by simp at h, fun d hd => ?_⟩
         simp only [List.length_cons, List.length_nil] at hd
         interval_cases d
         · simpa using h1
         · simp only [List.getD_cons_succ, List.getD_cons_zero]; omega
       · refine ⟨fun h => by simp at h, fun _ => rfl, fun d hd => ?_⟩
         simp only [List.length_singleton, Nat.lt_one_iff] at hd
         subst hd
         simpa using h1)
    | (obtain ⟨idx, ⟨i, rfl, h1⟩, rfl⟩ := hl
       refine ⟨fun _ => rfl, fun h => by simp at h, fun d hd => ?_⟩
       simp only [List.length_singleton, Nat.lt_one_iff] at hd
       subst hd
       simpa using h1)
    | (obtain ⟨idx, ⟨i, j, rfl, h1, h2⟩, rfl⟩ := hl
       refine ⟨fun _ => rfl, fun h => by simp at h, fun d hd => ?_⟩
       simp only [List.length_cons, List.length_nil] at hd
       interval_cases d
       · simpa using h1
       · simp only [List.getD_cons_succ, List.getD_cons_zero]; omega)
    | (obtain ⟨idx, ⟨i, j, k, rfl, h1, h2, h3⟩, rfl⟩ := hl
       refine ⟨fun _ => rfl, fun h => by simp at h, fun d hd => ?_⟩
       simp only [List.length_cons, List.length_nil] at hd
       interval_cases d
       · simpa using h1
       · simp only [List.getD_cons_succ, List.getD_cons_zero]; omega
       · simpa using h3)

/-- The pole launch on the index 3 of the two-dimensional curvilinear update of the sample mesh
block, whose active cells are `[2, 6)` on each axis. -/
theorem ampere_launches_in_active_range_witness :
    (engines.KernelKind.poles, [3]) ∈ engines.AmpereCurrents_launches false Dimension.TWO_D
        (engines.sampleMeshblock (0 : ℚ) 1 1) ∧
    ∀ d, d < [3].length →
      [(engines.sampleMeshblock (0 : ℚ) 1 1).i1_min, (engines.sampleMeshblock (0 : ℚ) 1 1).i2_min,
          (engines.sampleMeshblock (0 : ℚ) 1 1).i3_min].getD d 0 ≤ [3].getD d 0 ∧
      [3].getD d 0 < [(engines.sampleMeshblock (0 : ℚ) 1 1).i1_max,
          (engines.sampleMeshblock (0 : ℚ) 1 1).i2_max,
          (engines.sampleMeshblock (0 : ℚ) 1 1).i3_max].getD d 0 :=
  have hl : (engines.KernelKind.poles, [3]) ∈ engines.AmpereCurrents_launches false
      Dimension.TWO_D (engines.sampleMeshblock (0 : ℚ) 1 1) := by
    simp only [engines.AmpereCurrents_launches, Bool.false_eq_true, if_false, if_true,
      List.mem_append, List.mem_map, engines.mem_CreateRangePolicy_one, engines.sampleMeshblock]
    exact Or.inr ⟨[3], ⟨3, rfl, by omega, by omega⟩, rfl⟩
  ⟨hl, (ampere_launches_in_active_range false Dimension.TWO_D
    (engines.sampleMeshblock (0 : ℚ) 1 1) (engines.KernelKind.poles, [3]) hl).2.2⟩

/-! ## The coefficient of the Ampère update -/

/-- C24 (evaluation at the failing input). The two-dimensional input whose `boundaries` list has
the single entry `PERIODIC` is accepted by the constructor; the stored boundary list is
`[PERIODIC_BC]`, of length 1 and not 2, and `verify()` returns normally. -/
theorem short_boundaries_accepted :
    ∃ p, SimulationParams.ctor
        (sampleInput [8, 4] [(0 : ℚ), 8, 0, 4] ["PERIODIC"] none none) Dimension.TWO_D = .ok p
      ∧ p.m_boundaries = [BoundaryCondition.PERIODIC_BC]
      ∧ p.m_boundaries.length ≠ Dimension.TWO_D.rank
      ∧ SimulationParams.verify p = .ok () := by
  obtain ⟨p, hp⟩ := SimulationParams.ctor_isOk
    (sampleInput [8, 4] [(0 : ℚ), 8, 0, 4] ["PERIODIC"] none none) Dimension.TWO_D
    CoordinateSystem.CARTESIAN_COORD (by simp [sampleInput, readCoordSystem])
    (by simp [sampleInput, Dimension.rank]) (by simp [sampleInput])
    (by simp [sampleInput, Dimension.rank]) (by simp [sampleInput])
    (by norm_num [sampleInput])
  obtain ⟨-, -, -, -, -, hb⟩ := SimulationParams.ctor_ok _ _ p hp
  have hb' : p.m_boundaries = [BoundaryCondition.PERIODIC_BC] := by
    rw [hb]
    simp [sampleInput, Dimension.rank, readBoundary]
  refine ⟨p, hp, hb', ?_, ?_⟩
  · rw [hb']
    decide
  · rw [SimulationParams.verify_of_ctor _ _ p hp]
    simp [sampleInput, Dimension.rank, readBoundary]

/-! ## The relay point as computed -/

/-- The initial index and offset returned by `getDepositInterval` are those of the final
position, which is the stored index plus the stored offset. -/
theorem getDepositInterval_initial (N_GHOSTS : ℕ) (sqrt : α → α) (D : Dimension)
    (self : Deposit α D.rank) (p : ℕ) (d : Fin D.rank) :
    (getDepositInterval N_GHOSTS sqrt D self p).xp_f d
      = (((getDepositInterval N_GHOSTS sqrt D self p).Ip_f d : ℤ) : α)
        + (getDepositInterval N_GHOSTS sqrt D self p).dIp_f d ∧
    (getDepositInterval N_GHOSTS sqrt D self p).Ip_i d
      = (CU_to_Idi N_GHOSTS ((getDepositInterval N_GHOSTS sqrt D self p).xp_f d)).1 ∧
    (getDepositInterval N_GHOSTS sqrt D self p).dIp_i d
      = (CU_to_Idi N_GHOSTS ((getDepositInterval N_GHOSTS sqrt D self p).xp_f d)).2 := by
  cases D with
  | ONE_D =>
    have hd : d = (0 : Fin 1) := Subsingleton.elim _ _
    subst hd
    exact ⟨rfl, rfl, rfl⟩
  | TWO_D =>
    change Fin 2 at d
    fin_cases d <;> exact ⟨rfl, rfl, rfl⟩
  | THREE_D =>
    change Fin 3 at d
    fin_cases d <;> exact ⟨rfl, rfl, rfl⟩

/-- C25. In one, two and three dimensions, with at least one ghost layer, for every particle and
every axis `d` on which the stored offset lies in `[0, 1)` and the final position is at least
`-N_GHOSTS`: the initial index returned is `Ip_f[d] + N_GHOSTS` and the relay coordinate is
`Ip_f[d] + 1`, whatever the momentum of the particle, the metric and the time step. -/
theorem relay_point_as_computed (N_GHOSTS : ℕ) (sqrt : α → α) (D : Dimension)
    (self : Deposit α D.rank) (p : ℕ) (d : Fin D.rank) (hN : 1 ≤ N_GHOSTS)
    (h0 : 0 ≤ (getDepositInterval N_GHOSTS sqrt D self p).dIp_f d)
    (h1 : (getDepositInterval N_GHOSTS sqrt D self p).dIp_f d < 1)
    (hx : -(N_GHOSTS : α) ≤ (getDepositInterval N_GHOSTS sqrt D self p).xp_f d) :
    (getDepositInterval N_GHOSTS sqrt D self p).Ip_i d
      = (getDepositInterval N_GHOSTS sqrt D self p).Ip_f d + (N_GHOSTS : ℤ) ∧
    (getDepositInterval N_GHOSTS sqrt D self p).xp_r d
      = (((getDepositInterval N_GHOSTS sqrt D self p).Ip_f d : ℤ) : α) + 1 := by
  obtain ⟨hf, hi, -⟩ := getDepositInterval_initial N_GHOSTS sqrt D self p d
  have hIi : (getDepositInterval N_GHOSTS sqrt D self p).Ip_i d
      = (getDepositInterval N_GHOSTS sqrt D self p).Ip_f d + (N_GHOSTS : ℤ) := by
    rw [hi]
    simp only [CU_to_Idi]
    rw [static_cast_long_of_nonneg (by linarith), Int.floor_eq_iff, hf]
    push_cast
    constructor <;> linarith
  refine ⟨hIi, ?_⟩
  rw [getDepositInterval_xp_r, hIi]
  have hNz : (0 : ℤ) ≤ (N_GHOSTS : ℤ) := Int.natCast_nonneg _
  have hmin : min ((getDepositInterval N_GHOSTS sqrt D self p).Ip_f d + (N_GHOSTS : ℤ))
      ((getDepositInterval N_GHOSTS sqrt D self p).Ip_f d)
      = (getDepositInterval N_GHOSTS sqrt D self p).Ip_f d := min_eq_right (by omega)
  have hmax : max ((getDepositInterval N_GHOSTS sqrt D self p).Ip_f d + (N_GHOSTS : ℤ))
      ((getDepositInterval N_GHOSTS sqrt D self p).Ip_f d)
      = (getDepositInterval N_GHOSTS sqrt D self p).Ip_f d + (N_GHOSTS : ℤ) :=
    max_eq_left (by omega)
  rw [hmin, hmax]
  have hNa : (1 : α) ≤ (N_GHOSTS : α) := by exact_mod_cast hN
  push_cast
  apply min_eq_left
  apply le_max_of_le_left
  linarith

/-- The particle of `sample_ONE_D_eval` (two ghost layers, stored at cell 5 with offset 1/2):
the initial index returned is `5 + 2` and the relay coordinate is `5 + 1`. -/
theorem relay_point_as_computed_witness :
    (getDepositInterval 2 Real.sqrt .ONE_D (sampleDeposit 1 5 (1 / 2) (3 / 4) 1) 0).Ip_i 0
      = (getDepositInterval 2 Real.sqrt .ONE_D (sampleDeposit 1 5 (1 / 2) (3 / 4) 1) 0).Ip_f 0
        + ((2 : ℕ) : ℤ) ∧
    (getDepositInterval 2 Real.sqrt .ONE_D (sampleDeposit 1 5 (1 / 2) (3 / 4) 1) 0).xp_r 0
      = (((getDepositInterval 2 Real.sqrt .ONE_D (sampleDeposit 1 5 (1 / 2) (3 / 4) 1) 0).Ip_f 0
          : ℤ) : ℝ) + 1 :=
  relay_point_as_computed 2 Real.sqrt .ONE_D (sampleDeposit 1 5 (1 / 2) (3 / 4) 1) 0 0
    (by norm_num)
    (by rw [sample_ONE_D_eval.2.1]; norm_num)
    (by rw [sample_ONE_D_eval.2.1]; norm_num)
    (by rw [sample_ONE_D_eval.2.2.1]; norm_num)

/-! ## The index-to-coordinate maps of `meshblock.h` -/

/-- C26 (evaluation at the failing input). Mesh block of resolution 8 and extent `[0, 8]` with
two ghost layers (`get_imin = 2`, `get_imax = 10`, `get_dx1 = 1`): the storage index 5 is sent
to `0` by `convert_iTOx1`, whereas `x1min + (5 - N_GHOSTS) * get_dx1 = 3`; the end points
`get_imin` and `get_imax` are sent to `x1min = 0` and `x1max = 8`. -/
theorem convert_iTOx1_not_linear :
    objects.Meshblock.get_imin 2
        ({ m_extent := [(0 : ℚ), 8], m_resolution := [8] } : objects.Meshblock ℚ) ≤ 5 ∧
    5 ≤ objects.Meshblock.get_imax 2
        ({ m_extent := [(0 : ℚ), 8], m_resolution := [8] } : objects.Meshblock ℚ) ∧
    objects.convert_iTOx1 2
        ({ m_extent := [(0 : ℚ), 8], m_resolution := [8] } : objects.Meshblock ℚ) 5 = 0 ∧
    objects.Meshblock.get_x1min
        ({ m_extent := [(0 : ℚ), 8], m_resolution := [8] } : objects.Meshblock ℚ)
      + (((5 : ℕ) : ℚ) - ((2 : ℕ) : ℚ)) * objects.Meshblock.get_dx1
        ({ m_extent := [(0 : ℚ), 8], m_resolution := [8] } : objects.Meshblock ℚ) = 3 ∧
    objects.convert_iTOx1 2
        ({ m_extent := [(0 : ℚ), 8], m_resolution := [8] } : objects.Meshblock ℚ) 2 = 0 ∧
    objects.convert_iTOx1 2
        ({ m_extent := [(0 : ℚ), 8], m_resolution := [8] } : objects.Meshblock ℚ) 10 = 8 := by
  norm_num [objects.Meshblock.get_imin, objects.Meshblock.get_imax, objects.convert_iTOx1,
    objects.Meshblock.get_x1min, objects.Meshblock.get_dx1]

/-! ## `main` -/

theorem main_catch_error (e : Exception) (he : e ≠ Exception.assertion_failed) :
    main_catch (.error e) = MainOutcome.returned (-1) := by
  cases e <;> first | rfl | exact absurd rfl he

theorem main_catch_eq_zero (r : Except Exception Unit)
    (h : main_catch r = MainOutcome.returned 0) : r = .ok () := by
  cases r with
  | ok u => rfl
  | error e => cases e <;> simp [main_catch] at h

/-- The run of `main` on a parsed input whose `resolution` has fewer than 32768 entries, by the
number of entries. -/
theorem main_ok_eq {β : Type} (inputdata : InputData β)
    (Simulation : Dimension → InputData β → Except Exception Unit)
    (NTTError : String → Except Exception Unit)
    (hlen : inputdata.domain_resolution.length < 32768) :
    main (.ok inputdata) Simulation NTTError
      = if inputdata.domain_resolution.length = 1 then
          { outcome := main_catch (Simulation Dimension.ONE_D inputdata),
            simulations := [Dimension.ONE_D] }
        else if inputdata.domain_resolution.length = 2 then
          { outcome := main_catch (Simulation Dimension.TWO_D inputdata),
            simulations := [Dimension.TWO_D] }
        else if inputdata.domain_resolution.length = 3 then
          { outcome := main_catch (Simulation Dimension.THREE_D inputdata),
            simulations := [Dimension.THREE_D] }
        else
          { outcome := main_catch (NTTError "wrong dimension specified"),
            simulations := [] } := by
  unfold main
  simp only [static_cast_short_of_lt _ hlen]
  have e1 : ((inputdata.domain_resolution.length : ℤ) = 1)
      ↔ inputdata.domain_resolution.length = 1 := by omega
  have e2 : ((inputdata.domain_resolution.length : ℤ) = 2)
      ↔ inputdata.domain_resolution.length = 2 := by omega
  have e3 : ((inputdata.domain_resolution.length : ℤ) = 3)
      ↔ inputdata.domain_resolution.length = 3 := by omega
  simp only [e1, e2, e3]

/-- C21 (evaluation at the failing input). For the input whose `resolution` has 65537 entries
(with a simulation that completes and `NTTError` raising through `raise::Error`), `main` does not
reach the branch of the "wrong dimension specified" error: it constructs and runs the
one-dimensional simulation and returns 0. -/
theorem main_wraps_resolution_size :
    (sampleInput (List.replicate 65537 8) [(0 : ℚ), 8] ["PERIODIC"] none
        none).domain_resolution.length = 65537 ∧
    main (.ok (sampleInput (List.replicate 65537 8) [(0 : ℚ), 8] ["PERIODIC"] none none))
        (fun _ _ => .ok ()) (fun msg => raise.Error msg "main.cpp" "main" 52)
      = { outcome := MainOutcome.returned 0, simulations := [Dimension.ONE_D] } := by
  have hlen : (sampleInput (List.replicate 65537 8) [(0 : ℚ), 8] ["PERIODIC"] none
      none).domain_resolution.length = 65537 := List.length_replicate _ _
  refine ⟨hlen, ?_⟩
  unfold main
  have h : static_cast_short
      ((sampleInput (List.replicate 65537 8) [(0 : ℚ), 8] ["PERIODIC"] none
        none).domain_resolution.length : ℤ) = 1 := by
    rw [hlen]
    rfl
  simp only [h, if_true]
  rfl

/-- The behaviour of `main` away from the narrowing of the entry count, with `NTTError` raising
an exception: for every parsed input whose `resolution` has fewer than 32768 entries, `main`
constructs and runs the `D`-dimensional simulation exactly when `resolution` has `D` entries, and
runs none and returns `-1` when the number of entries is not 1, 2 or 3; `main` returns 0 only if
the input was parsed and the simulation it ran completed without an exception; and it returns
`-1` whenever reading the input or the simulation raises an exception. -/
theorem main_dispatch_and_status {β : Type} (parsed : Except Exception (InputData β))
    (Simulation : Dimension → InputData β → Except Exception Unit)
    (NTTError : String → Except Exception Unit)
    (hNTT : ∀ msg, ∃ e, NTTError msg = .error e ∧ e ≠ Exception.assertion_failed) :
    (∀ inputdata, parsed = .ok inputdata → inputdata.domain_resolution.length < 32768 →
      (∀ D, (main parsed Simulation NTTError).simulations = [D]
          ↔ inputdata.domain_resolution.length = D.rank) ∧
      ((∀ D : Dimension, inputdata.domain_resolution.length ≠ D.rank) →
        (main parsed Simulation NTTError).simulations = [] ∧
        (main parsed Simulation NTTError).outcome = MainOutcome.returned (-1))) ∧
    ((main parsed Simulation NTTError).outcome = MainOutcome.returned 0 →
      ∃ inputdata D, parsed = .ok inputdata
        ∧ (main parsed Simulation NTTError).simulations = [D]
        ∧ Simulation D inputdata = .ok ()) ∧
    (∀ e, e ≠ Exception.assertion_failed → parsed = .error e →
      (main parsed Simulation NTTError).outcome = MainOutcome.returned (-1) ∧
      (main parsed Simulation NTTError).simulations = []) ∧
    (∀ inputdata D e, parsed = .ok inputdata →
      (main parsed Simulation NTTError).simulations = [D] →
      Simulation D inputdata = .error e → e ≠ Exception.assertion_failed →
      (main parsed Simulation NTTError).outcome = MainOutcome.returned (-1)) := by
  have hwrong : main_catch (NTTError "wrong dimension specified") = MainOutcome.returned (-1) := by
    obtain ⟨e, he, hne⟩ := hNTT "wrong dimension specified"
    rw [he]
    exact main_catch_error e hne
  refine ⟨?_, ?_, ?_, ?_⟩
  · intro inputdata hp hlen
    subst hp
    rw [main_ok_eq inputdata Simulation NTTError hlen]
    constructor
    · intro D
      split_ifs <;> cases D <;> simp [Dimension.rank, *]
    · intro hall
      have h1 := hall Dimension.ONE_D
      have h2 := hall Dimension.TWO_D
      have h3 := hall Dimension.THREE_D
      simp only [Dimension.rank] at h1 h2 h3
      simp only [h1, h2, h3, if_false, hwrong, and_self]
  · intro h0
    cases parsed with
    | error e =>
      cases e <;> simp [main, main_catch] at h0
    | ok inputdata =>
      unfold main at h0 ⊢
      simp only at h0 ⊢
      split_ifs at h0 ⊢ with h1 h2 h3
      · exact ⟨inputdata, Dimension.ONE_D, rfl, rfl, main_catch_eq_zero _ h0⟩
      · exact ⟨inputdata, Dimension.TWO_D, rfl, rfl, main_catch_eq_zero _ h0⟩
      · exact ⟨inputdata, Dimension.THREE_D, rfl, rfl, main_catch_eq_zero _ h0⟩
      · rw [hwrong] at h0
        simp at h0
  · intro e he hp
    subst hp
    exact ⟨main_catch_error e he, rfl⟩
  · intro inputdata D e hp hs hS he
    subst hp
    unfold main at hs ⊢
    simp only at hs ⊢
    split_ifs at hs ⊢ with h1 h2 h3
    · simp only [List.cons.injEq, and_true] at hs
      subst hs
      rw [hS]
      exact main_catch_error e he
    · simp only [List.cons.injEq, and_true] at hs
      subst hs
      rw [hS]
      exact main_catch_error e he
    · simp only [List.cons.injEq, and_true] at hs
      subst hs
      rw [hS]
      exact main_catch_error e he

/-- With `NTTError` raising `logic_error` through `raise::Error`: the input with two resolution
entries runs the two-dimensional simulation, and `main` returns 0 when that completes; the input
with four resolution entries runs none and `main` returns `-1`. -/
theorem main_dispatch_and_status_witness :
    ((main (.ok (sampleInput [8, 4] [(0 : ℚ), 8, 0, 4] ["PERIODIC", "OPEN"] none none))
        (fun _ _ => .ok ()) (fun msg => raise.Error msg "main.cpp" "main" 52)).simulations
      = [Dimension.TWO_D]) ∧
    ((main (.ok (sampleInput [8, 4, 2, 2] [(0 : ℚ), 8] ["PERIODIC"] none none))
        (fun _ _ => .ok ()) (fun msg => raise.Error msg "main.cpp" "main" 52)).simulations = []
      ∧ (main (.ok (sampleInput [8, 4, 2, 2] [(0 : ℚ), 8] ["PERIODIC"] none none))
        (fun _ _ => .ok ()) (fun msg => raise.Error msg "main.cpp" "main" 52)).outcome
          = MainOutcome.returned (-1)) :=
  have hNTT : ∀ msg : String, ∃ e, (fun msg => raise.Error msg "main.cpp" "main" 52) msg
      = .error e ∧ e ≠ Exception.assertion_failed := fun msg => ⟨_, rfl, by simp⟩
  ⟨(((main_dispatch_and_status
      (.ok (sampleInput [8, 4] [(0 : ℚ), 8, 0, 4] ["PERIODIC", "OPEN"] none none))
      (fun _ _ => .ok ()) (fun msg => raise.Error msg "main.cpp" "main" 52) hNTT).1 _ rfl
      (by simp [sampleInput])).1 Dimension.TWO_D).2 (by simp [sampleInput, Dimension.rank]),
    ((main_dispatch_and_status
      (.ok (sampleInput [8, 4, 2, 2] [(0 : ℚ), 8] ["PERIODIC"] none none))
      (fun _ _ => .ok ()) (fun msg => raise.Error msg "main.cpp" "main" 52) hNTT).1 _ rfl
      (by simp [sampleInput])).2
      (fun D => by cases D <;> simp [sampleInput, Dimension.rank])⟩

end ntt
